import Mathlib

/-!
Verification development for the coastwatch capture/analysis/storage core.

Each Python component is shallowly embedded as executable Lean definitions:
pure logic becomes Lean functions, mutable object state becomes explicit
state passing, Python floats are modelled as exact rationals, wall-clock
instants as rationals, UTC dates as integers, and exceptions as explicit
error values.  External collaborators (HTTP endpoints, the weather provider,
the detector, the vision service) are modelled by behaviour parameters: the
value or exception each call site would observe.
-/

deriving instance DecidableEq for Except

namespace CoastWatch

/-! ## Rate limiter — `coastwatch/common/rate_limiter.py`

`TokenBucketRateLimiter` holds mutable fields `_rpm, _daily, _tokens,
_last_refill, _daily_used, _daily_reset_date`.  The state is passed
explicitly; `time.monotonic()` values are rationals, `date()` values are
integers (day numbers). -/

structure LimiterState where
  rpm : ℕ
  daily : ℕ
  tokens : ℚ
  lastRefill : ℚ
  dailyUsed : ℕ
  dailyResetDate : ℤ
deriving Repr, DecidableEq

/-- `TokenBucketRateLimiter.__init__(rpm, daily)` at monotonic time `now`
on UTC date `today`. -/
def limiterInit (rpm daily : ℕ) (now : ℚ) (today : ℤ) : LimiterState :=
  { rpm := rpm, daily := daily, tokens := (rpm : ℚ), lastRefill := now,
    dailyUsed := 0, dailyResetDate := today }

/-- `TokenBucketRateLimiter._refill` at monotonic time `now`. -/
def refill (s : LimiterState) (now : ℚ) : LimiterState :=
  { s with
    tokens := min ((s.rpm : ℚ)) (s.tokens + (now - s.lastRefill) * ((s.rpm : ℚ) / 60)),
    lastRefill := now }

/-- The two lines `self._tokens -= 1.0; self._daily_used += 1` of the
successful branch of the `acquire` loop. -/
def consume (s : LimiterState) : LimiterState :=
  { s with tokens := s.tokens - 1, dailyUsed := s.dailyUsed + 1 }

/-- `wait_time = (1.0 - self._tokens) / (self._rpm / 60.0)`. -/
def waitTime (s : LimiterState) : ℚ := (1 - s.tokens) / ((s.rpm : ℚ) / 60)

/-- Outcome of one `acquire()` call: success (with the total time spent in
`asyncio.sleep`), a raised `RateLimitError`, or fuel exhaustion of the model
of the `while True` loop. -/
inductive AcquireOutcome where
  | granted (s : LimiterState) (waited : ℚ)
  | quotaError (msg : String) (s : LimiterState)
  | fuelOut
deriving Repr, DecidableEq

/-- The `while True` loop of `acquire`: refill, consume a token if one is
available, otherwise sleep for the computed wait time and retry.  During
`asyncio.sleep(w)` the monotonic clock advances by exactly `w`. -/
def acquireLoop : ℕ → LimiterState → ℚ → AcquireOutcome
  | 0, _, _ => .fuelOut
  | fuel + 1, s, now =>
    if 1 ≤ (refill s now).tokens then
      .granted (consume (refill s now)) 0
    else
      match acquireLoop fuel (refill s now) (now + waitTime (refill s now)) with
      | .granted s2 rest => .granted s2 (waitTime (refill s now) + rest)
      | .quotaError m s2 => .quotaError m s2
      | .fuelOut => .fuelOut

/-- The UTC-midnight rollover at the top of `acquire` (lines 25-28): if the
date changed, reset the daily counter. -/
def rollover (s : LimiterState) (today : ℤ) : LimiterState :=
  if today ≠ s.dailyResetDate
    then { s with dailyUsed := 0, dailyResetDate := today } else s

/-- `TokenBucketRateLimiter.acquire()` called at monotonic time `now` on UTC
date `today`: first the midnight rollover, then the daily-cap check (a raised
`RateLimitError`), then the token loop. -/
def acquire (fuel : ℕ) (s : LimiterState) (now : ℚ) (today : ℤ) : AcquireOutcome :=
  if (rollover s today).daily ≤ (rollover s today).dailyUsed then
    .quotaError ("Daily API limit reached (" ++ toString (rollover s today).daily ++ "). Resets at midnight UTC.")
      (rollover s today)
  else acquireLoop fuel (rollover s today) now

/-- `n` back-to-back `acquire()` calls (no time passes between calls; the
clock advances only by the waits the limiter itself performs).  Stops at the
first non-granted outcome. -/
def acquireSeq : ℕ → ℕ → LimiterState → ℚ → ℤ → List AcquireOutcome
  | 0, _, _, _, _ => []
  | n + 1, fuel, s, now, today =>
    match acquire fuel s now today with
    | .granted s' w => .granted s' w :: acquireSeq n fuel s' (now + w) today
    | r => [r]

/-- The wait time of an outcome, `none` if the call did not succeed. -/
def waitOf : AcquireOutcome → Option ℚ
  | .granted _ w => some w
  | _ => none

/-- The full behaviour claimed for `acquire` (claim C2), as a predicate on
the pre-state and the call instant:
1. daily-cap reached (no rollover pending) — immediate `RateLimitError`,
   state untouched: no token consumed, daily counter not incremented;
2. daily cap not reached after rollover — the call always succeeds
   (per-minute exhaustion only waits), incrementing the daily counter;
3. fresh `rpm=30` limiter: 30 back-to-back calls wait 0, the 31st waits
   `2 = 60/30` seconds;
4. UTC-midnight rollover resets the daily counter (the successful call
   leaves it at 1). -/
def AcquireSpec (s : LimiterState) (now : ℚ) (today : ℤ) : Prop :=
  (today = s.dailyResetDate → s.daily ≤ s.dailyUsed →
    acquire 2 s now today =
      .quotaError ("Daily API limit reached (" ++ toString s.daily ++ "). Resets at midnight UTC.") s) ∧
  (∀ fuel, 2 ≤ fuel →
    (if today ≠ s.dailyResetDate then 0 else s.dailyUsed) < s.daily →
    ∃ s' w, acquire fuel s now today = .granted s' w ∧
      s'.dailyUsed = (if today ≠ s.dailyResetDate then 0 else s.dailyUsed) + 1) ∧
  ((acquireSeq 31 2 (limiterInit 30 500 0 0) 0 0).map waitOf =
    List.replicate 30 (some 0) ++ [some 2]) ∧
  (today ≠ s.dailyResetDate → 0 < s.daily →
    ∃ s' w, acquire 2 s now today = .granted s' w ∧
      s'.dailyUsed = 1 ∧ s'.dailyResetDate = today)

/-- State of the fresh `rpm=30, daily=500` limiter after `k` back-to-back
successful calls issued at monotonic time 0 (claim C2 scenario). -/
def scenState (k : ℕ) : LimiterState :=
  { rpm := 30, daily := 500, tokens := 30 - (k : ℚ), lastRefill := 0,
    dailyUsed := k, dailyResetDate := 0 }

/-! ## Frame grabber — `coastwatch/capture/grabber.py`

Configuration records mirror `coastwatch/config/models.py` (fields the core
never reads are omitted).  The network is a behaviour parameter
`Net : url -> attempt index -> outcome`: what the indexed HTTP round trip
for that URL would yield.  `httpErr` models an `httpx.HTTPError` (retried),
`otherErr` any other exception (propagates out of the retry loop, e.g. the
`RuntimeError` for a missing Windy key or a malformed Windy response).
For a `windy://` endpoint one outcome covers the whole composite attempt
(metadata call, image-URL selection, image fetch).  Image bytes are
modelled as a natural number.  `asyncio.sleep` calls are recorded as an
event trace alongside the result. -/

structure WebcamConfig where
  snapshot_url : String
  headers : List (String × String) := []
  fallback_urls : List String := []
deriving Repr, DecidableEq

structure Coordinates where
  latitude : ℚ
  longitude : ℚ
deriving Repr, DecidableEq

structure BeachMetadata where
  orientation : String := "west"
  timezone : String := "Europe/Paris"
  surf_spot : Bool := true
deriving Repr, DecidableEq

structure BeachConfig where
  id : String
  name : String
  region : String
  coordinates : Coordinates
  webcam : WebcamConfig
  metadata : BeachMetadata := {}
deriving Repr, DecidableEq

inductive FetchOutcome where
  | ok (bytes : ℕ)
  | httpErr (msg : String)
  | otherErr (msg : String)
deriving Repr, DecidableEq

def Net : Type := String → ℕ → FetchOutcome

/-- One entry of the event trace of a grab: an HTTP attempt on a URL
(0-based attempt index), or an `asyncio.sleep` of the given duration. -/
inductive GrabEvent where
  | attempt (url : String) (i : ℕ)
  | sleep (d : ℚ)
deriving Repr, DecidableEq

def GrabEvent.isAttempt : GrabEvent → Bool
  | .attempt _ _ => true
  | _ => false

def sleepOf : GrabEvent → Option ℚ
  | .sleep d => some d
  | _ => none

/-- `FrameGrabber.__init__` fields (plus the `WINDY_API_KEY` env var). -/
structure FrameGrabberCfg where
  timeout : ℚ := 15
  max_retries : ℕ := 3
  backoff : ℚ := 5
  windy_api_key : String := ""
deriving Repr, DecidableEq

structure GrabbedFrame where
  beach_id : String
  image_bytes : ℕ
  captured_at : String
  source_url : String
  content_type : String := "image/jpeg"
deriving Repr, DecidableEq

/-- `WebcamUnavailableError(beach_id, urls_tried, last_error)`;
`last_error` is `str` of the last per-URL exception. -/
structure WebcamUnavailable where
  beach_id : String
  urls_tried : List String
  last_error : Option String
deriving Repr, DecidableEq

/-- The retry loop of `FrameGrabber._fetch_url` for a plain URL, over the
remaining attempt indices (`range(self._max_retries)`): on `httpx.HTTPError`
sleep `backoff * (attempt + 1)` and retry unless this was the last attempt;
any other exception propagates at once.  The empty case is the
`raise RuntimeError("Unreachable: ...")` after the loop. -/
def fetch_url_go (cfg : FrameGrabberCfg) (net : Net) (url : String) :
    List ℕ → Except String ℕ × List GrabEvent
  | [] => (.error ("Unreachable: all retries failed for " ++ url), [])
  | attemptIdx :: rest =>
    match net url attemptIdx with
    | .ok b => (.ok b, [.attempt url attemptIdx])
    | .httpErr m =>
      if attemptIdx < cfg.max_retries - 1 then
        let r := fetch_url_go cfg net url rest
        (r.1, .attempt url attemptIdx :: .sleep (cfg.backoff * ((attemptIdx : ℚ) + 1)) :: r.2)
      else (.error m, [.attempt url attemptIdx])
    | .otherErr m => (.error m, [.attempt url attemptIdx])

/-- The retry loop of `FrameGrabber._fetch_windy` (same shape; one outcome
covers the composite metadata+image attempt). -/
def fetch_windy_go (cfg : FrameGrabberCfg) (net : Net) (url webcam_id : String) :
    List ℕ → Except String ℕ × List GrabEvent
  | [] => (.error ("Unreachable: all retries failed for Windy webcam " ++ webcam_id), [])
  | attemptIdx :: rest =>
    match net url attemptIdx with
    | .ok b => (.ok b, [.attempt url attemptIdx])
    | .httpErr m =>
      if attemptIdx < cfg.max_retries - 1 then
        let r := fetch_windy_go cfg net url webcam_id rest
        (r.1, .attempt url attemptIdx :: .sleep (cfg.backoff * ((attemptIdx : ℚ) + 1)) :: r.2)
      else (.error m, [.attempt url attemptIdx])
    | .otherErr m => (.error m, [.attempt url attemptIdx])

/-- `FrameGrabber._fetch_windy`: missing API key raises `RuntimeError`
before any attempt; otherwise the retry loop runs. -/
def fetch_windy (cfg : FrameGrabberCfg) (net : Net) (webcam_id : String) :
    Except String ℕ × List GrabEvent :=
  if cfg.windy_api_key = "" then
    (.error ("WINDY_API_KEY not set. Get a free key at https://api.windy.com/webcams"), [])
  else fetch_windy_go cfg net ("windy://" ++ webcam_id) webcam_id (List.range cfg.max_retries)

/-- `FrameGrabber._fetch_url`: dispatch on the `windy://` scheme, else the
plain retry loop over `range(self._max_retries)`. -/
def fetch_url (cfg : FrameGrabberCfg) (net : Net) (url : String) :
    Except String ℕ × List GrabEvent :=
  if url.data.take 8 == ("windy://").data then fetch_windy cfg net (String.mk (url.data.drop 8))
  else fetch_url_go cfg net url (List.range cfg.max_retries)

/-- The `for attempt_url in all_urls` loop of `FrameGrabber.grab_frame`:
every URL is appended to `urls_tried` before being fetched; the first
success returns a frame carrying that URL; when the list is exhausted,
`WebcamUnavailableError(beach_id, urls_tried, last_error)` is raised.
The per-URL fetch (`self._fetch_url` with the shared client) is the
function parameter `f`. -/
def grab_frame_go (beachId now : String) (f : String → Except String ℕ × List GrabEvent) :
    List String → List String → Option String →
      Except WebcamUnavailable GrabbedFrame × List GrabEvent
  | [], tried, lastErr => (.error ⟨beachId, tried, lastErr⟩, [])
  | url :: rest, tried, _ =>
    match (f url).1 with
    | .ok b =>
      (.ok { beach_id := beachId, image_bytes := b, captured_at := now, source_url := url },
        (f url).2)
    | .error e =>
      let r := grab_frame_go beachId now f rest (tried ++ [url]) (some e)
      (r.1, (f url).2 ++ r.2)

/-- `FrameGrabber.grab_frame(beach)` at capture time `now`
(`datetime.now(timezone.utc).isoformat()`). -/
def grab_frame (cfg : FrameGrabberCfg) (net : Net) (beach : BeachConfig) (now : String) :
    Except WebcamUnavailable GrabbedFrame × List GrabEvent :=
  grab_frame_go beach.id now (fetch_url cfg net)
    (beach.webcam.snapshot_url :: beach.webcam.fallback_urls) [] none

/-- `GrabResult`: either `frame` or `error` is set. -/
structure GrabResult where
  beach_id : String
  frame : Option GrabbedFrame := none
  error : Option WebcamUnavailable := none
deriving Repr, DecidableEq

def GrabResult.success (r : GrabResult) : Bool := r.frame.isSome

/-- `FrameGrabber.grab_all(beaches, concurrency)`: one `GrabResult` per
beach; `asyncio.gather` returns results in the order of its argument list,
so the semaphore-bounded interleaving does not affect the result list. -/
def grab_all (cfg : FrameGrabberCfg) (net : Net) (now : String)
    (beaches : List BeachConfig) : List GrabResult :=
  beaches.map fun b =>
    match (grab_frame cfg net b now).1 with
    | .ok f => { beach_id := b.id, frame := some f }
    | .error e => { beach_id := b.id, error := some e }

/-- Events of a plain endpoint whose listed attempts all fail with
`httpx.HTTPError`: each attempt, with a backoff sleep after every
non-final one. -/
def retryEvents (url : String) (backoff : ℚ) (mr : ℕ) (attempts : List ℕ) : List GrabEvent :=
  attempts.flatMap fun i =>
    if i < mr - 1 then [.attempt url i, .sleep (backoff * ((i : ℚ) + 1))]
    else [.attempt url i]

/-- Claim C8: `grab_all` yields exactly one result per input beach, in input
order, each either success-with-frame or failure-with-error. -/
def GrabAllSpec (cfg : FrameGrabberCfg) (net : Net) (now : String)
    (beaches : List BeachConfig) : Prop :=
  ∃ h : (grab_all cfg net now beaches).length = beaches.length,
    ∀ i (hi : i < beaches.length),
      ((grab_all cfg net now beaches).get ⟨i, h ▸ hi⟩).beach_id
          = (beaches.get ⟨i, hi⟩).id ∧
      ((((grab_all cfg net now beaches).get ⟨i, h ▸ hi⟩).frame.isSome
          ∧ ((grab_all cfg net now beaches).get ⟨i, h ▸ hi⟩).error = none)
        ∨ (((grab_all cfg net now beaches).get ⟨i, h ▸ hi⟩).frame = none
          ∧ ((grab_all cfg net now beaches).get ⟨i, h ▸ hi⟩).error.isSome))

/-- Claim C3 (amended): `grab_frame` fails only after every configured
endpoint was tried (and then each endpoint's fetch had failed); a first
successful endpoint supplies the returned bytes and `source_url`; a plain
HTTP endpoint whose attempts keep failing with transport errors is tried
exactly `max_retries` times with backoff sleeps `backoff * attempt`
(`attempt = 1, ..., max_retries - 1`) between attempts. -/
def GrabFrameSpec (cfg : FrameGrabberCfg) (net : Net) (beach : BeachConfig) (now : String) : Prop :=
  (∀ e, (grab_frame cfg net beach now).1 = .error e →
    e.urls_tried = beach.webcam.snapshot_url :: beach.webcam.fallback_urls ∧
    ∀ url ∈ beach.webcam.snapshot_url :: beach.webcam.fallback_urls,
      (fetch_url cfg net url).1.isOk = false) ∧
  (∀ pre url post b,
    beach.webcam.snapshot_url :: beach.webcam.fallback_urls = pre ++ url :: post →
    (∀ u ∈ pre, (fetch_url cfg net u).1.isOk = false) →
    (fetch_url cfg net url).1 = .ok b →
    (grab_frame cfg net beach now).1 =
      .ok { beach_id := beach.id, image_bytes := b, captured_at := now, source_url := url }) ∧
  (∀ url (msgs : ℕ → String), (url.data.take 8 == ("windy://").data) = false →
    1 ≤ cfg.max_retries →
    (∀ i, net url i = .httpErr (msgs i)) →
    (fetch_url cfg net url).1 = .error (msgs (cfg.max_retries - 1)) ∧
    (fetch_url cfg net url).2.countP GrabEvent.isAttempt = cfg.max_retries ∧
    (fetch_url cfg net url).2.filterMap sleepOf
      = (List.range (cfg.max_retries - 1)).map (fun i => cfg.backoff * ((i : ℚ) + 1)))

/-- A grabber built with the default settings and no `WINDY_API_KEY`. -/
def cfgEx : FrameGrabberCfg := {}

/-- A network where every plain request fails with a transport error. -/
def netFail : Net := fun _ i => .httpErr ("connect timeout " ++ toString i)

/-- A network where exactly one URL serves bytes `7`. -/
def netOkAt (good : String) : Net :=
  fun url _ => if url = good then .ok 7 else .httpErr ("down")

/-- A beach whose only endpoint is an indirect Windy webcam. -/
def beachWindy : BeachConfig :=
  { id := "w1", name := "Windy Cove", region := "north",
    coordinates := { latitude := 0, longitude := 0 },
    webcam := { snapshot_url := "windy://abc" } }

/-- A beach with a primary endpoint and one fallback. -/
def beachTwo : BeachConfig :=
  { id := "b1", name := "Two Cams", region := "north",
    coordinates := { latitude := 0, longitude := 0 },
    webcam := { snapshot_url := "http://primary/a.jpg",
                fallback_urls := ["http://fallback/a.jpg"] } }

/-! ## Analysis result models — `coastwatch/analysis/models.py`

Pydantic models become structures; `float` becomes an exact rational. -/

structure PersonDetectionResult where
  person_count : ℤ := 0
  confidence_avg : ℚ := 0
  detection_method : String := "yolo"
deriving Repr, DecidableEq

structure WaveEstimate where
  wave_level : String := "unknown"
  whitecap_ratio : ℚ := 0
  edge_density : ℚ := 0
  confidence : ℚ := 0
deriving Repr, DecidableEq

structure ImageQuality where
  is_usable : Bool := true
  quality_score : ℚ := 1
  issues : List String := []
deriving Repr, DecidableEq

structure CameraStatus where
  status : String := "working"
  reason : String := ""
deriving Repr, DecidableEq

structure LocalAnalysisResult where
  waves : WaveEstimate := {}
  image_quality : ImageQuality := {}
  camera_status : CameraStatus := {}
deriving Repr, DecidableEq

structure WeatherAPIData where
  temperature_c : Option ℚ := none
  feels_like_c : Option ℚ := none
  humidity_pct : Option ℤ := none
  wind_speed_kmh : Option ℚ := none
  wind_direction : Option String := none
  wind_gust_kmh : Option ℚ := none
  condition : String := "unknown"
  description : String := ""
  precipitation_mm : ℚ := 0
  visibility_km : Option ℚ := none
  uv_index : Option ℚ := none
  source : String := "openweathermap"
deriving Repr, DecidableEq

structure CrowdAnalysis where
  level : String := "unknown"
  estimated_count : Option ℤ := none
  distribution : String := "none"
  notes : String := ""
deriving Repr, DecidableEq

structure WaveAnalysis where
  size : String := "unknown"
  quality : String := "unknown"
  type : String := "unknown"
  period_estimate : String := ""
  notes : String := ""
deriving Repr, DecidableEq

structure WeatherAnalysis where
  condition : String := "unknown"
  wind_estimate : String := "unknown"
  wind_direction_visual : Option String := none
  visibility : String := "unknown"
  notes : String := ""
deriving Repr, DecidableEq

structure CurrentAnalysis where
  danger_level : String := "unknown"
  rip_current_detected : Bool := false
  indicators : List String := []
  notes : String := ""
deriving Repr, DecidableEq

structure OverallAnalysis where
  beach_score : ℚ := 5
  surf_score : Option ℚ := none
  summary : String := ""
  best_for : List String := []
deriving Repr, DecidableEq

structure VisionAnalysis where
  crowd : CrowdAnalysis := {}
  waves : WaveAnalysis := {}
  weather : WeatherAnalysis := {}
  currents : CurrentAnalysis := {}
  overall : OverallAnalysis := {}
deriving Repr, DecidableEq

/-! ## Observation record — `coastwatch/storage/repository.py` (dataclass) -/

structure Observation where
  beach_id : String
  captured_at : String
  source_url : String := ""
  camera_status : Option String := none
  camera_status_reason : Option String := none
  person_count : Option ℤ := none
  person_confidence : Option ℚ := none
  detection_method : Option String := none
  cv_wave_level : Option String := none
  cv_whitecap_ratio : Option ℚ := none
  cv_edge_density : Option ℚ := none
  cv_wave_confidence : Option ℚ := none
  cv_image_quality : Option ℚ := none
  weather_temperature_c : Option ℚ := none
  weather_feels_like_c : Option ℚ := none
  weather_humidity_pct : Option ℤ := none
  weather_wind_speed_kmh : Option ℚ := none
  weather_wind_direction : Option String := none
  weather_wind_gust_kmh : Option ℚ := none
  weather_condition : Option String := none
  weather_description : Option String := none
  weather_precipitation_mm : Option ℚ := none
  weather_visibility_km : Option ℚ := none
  weather_uv_index : Option ℚ := none
  ai_crowd_level : Option String := none
  ai_crowd_count : Option ℤ := none
  ai_crowd_distribution : Option String := none
  ai_crowd_notes : Option String := none
  ai_wave_size : Option String := none
  ai_wave_quality : Option String := none
  ai_wave_type : Option String := none
  ai_wave_period : Option String := none
  ai_wave_notes : Option String := none
  ai_weather_condition : Option String := none
  ai_wind_estimate : Option String := none
  ai_wind_direction : Option String := none
  ai_visibility : Option String := none
  ai_weather_notes : Option String := none
  ai_current_danger_level : Option String := none
  ai_current_rip_detected : Option Bool := none
  ai_current_indicators : List String := []
  ai_current_notes : Option String := none
  ai_beach_score : Option ℚ := none
  ai_surf_score : Option ℚ := none
  ai_summary : Option String := none
  ai_best_for : List String := []
  analysis_model : Option String := none
  processing_time_ms : Option ℤ := none
  error_message : Option String := none
  id : Option ℕ := none
deriving Repr, DecidableEq

/-! ## Analysis pipeline — `coastwatch/analysis/pipeline.py`

Collaborator behaviour is data: what each call made by `process_frame`
would return or raise.  Exceptions are `PyExc` values; every constructor
models a subclass of `Exception`, so `except Exception` catches all of
them, `except RateLimitError` / `except WeatherAPIError` only their own. -/

inductive PyExc where
  | rateLimitError (msg : String)
  | weatherAPIError (msg : String)
  | otherError (msg : String)
deriving Repr, DecidableEq

/-- `str(e)`. -/
def PyExc.msg : PyExc → String
  | .rateLimitError m => m
  | .weatherAPIError m => m
  | .otherError m => m

/-- `str` of a list of strings, as interpolated into the f-string
`f"Image unusable: {issues}"` (Python also quotes each element; the
quotes are irrelevant here and omitted). -/
def formatStrList (xs : List String) : String :=
  "[" ++ String.intercalate ", " xs ++ "]"

/-- The collaborators of one `process_frame` call.  `analyzerResult` is what
`self._image_analyzer.analyze(frame.image_bytes, ...)` returns or raises
(this call is not wrapped in `try`); `personDetector`, `weatherClient`,
`visionClient` are `None` when the optional collaborator is absent,
otherwise the outcome of the single call `process_frame` would make to it;
the vision entry also carries `self._vision._settings.model`. -/
structure PipelineDeps where
  analyzerResult : Except PyExc LocalAnalysisResult
  personDetector : Option (Except PyExc PersonDetectionResult) := none
  weatherClient : Option (Except PyExc WeatherAPIData) := none
  visionClient : Option (Except PyExc VisionAnalysis × String) := none
deriving Repr, DecidableEq

/-- `AnalysisPipeline._merge_results`: build the `Observation`, then the
three conditional blocks (`if person_result`, `if weather_data and
weather_data.temperature_c is not None`, `if vision_result`; a pydantic
model is always truthy, so those tests are `is not None` tests). -/
def merge_results (beach : BeachConfig) (frame : GrabbedFrame)
    (local_result : LocalAnalysisResult) (person_result : Option PersonDetectionResult)
    (weather_data : Option WeatherAPIData) (vision_result : Option VisionAnalysis)
    (model_used : Option String) (elapsed_ms : ℤ) (error_message : Option String) :
    Observation :=
  let obs : Observation :=
    { beach_id := beach.id
      captured_at := frame.captured_at
      source_url := frame.source_url
      camera_status := some local_result.camera_status.status
      camera_status_reason := some local_result.camera_status.reason
      cv_wave_level := some local_result.waves.wave_level
      cv_whitecap_ratio := some local_result.waves.whitecap_ratio
      cv_edge_density := some local_result.waves.edge_density
      cv_wave_confidence := some local_result.waves.confidence
      cv_image_quality := some local_result.image_quality.quality_score
      analysis_model := model_used
      processing_time_ms := some elapsed_ms
      error_message := error_message }
  let obs := match person_result with
    | some p =>
      { obs with
          person_count := some p.person_count,
          person_confidence := some p.confidence_avg,
          detection_method := some p.detection_method }
    | none => obs
  let obs := match weather_data with
    | some w =>
      if w.temperature_c ≠ none then
        { obs with
            weather_temperature_c := w.temperature_c,
            weather_feels_like_c := w.feels_like_c,
            weather_humidity_pct := w.humidity_pct,
            weather_wind_speed_kmh := w.wind_speed_kmh,
            weather_wind_direction := w.wind_direction,
            weather_wind_gust_kmh := w.wind_gust_kmh,
            weather_condition := some w.condition,
            weather_description := some w.description,
            weather_precipitation_mm := some w.precipitation_mm,
            weather_visibility_km := w.visibility_km,
            weather_uv_index := w.uv_index }
      else obs
    | none => obs
  let obs := match vision_result with
    | some v =>
      { obs with
          ai_crowd_level := some v.crowd.level,
          ai_crowd_count := v.crowd.estimated_count,
          ai_crowd_distribution := some v.crowd.distribution,
          ai_crowd_notes := some v.crowd.notes,
          ai_wave_size := some v.waves.size,
          ai_wave_quality := some v.waves.quality,
          ai_wave_type := some v.waves.type,
          ai_wave_period := some v.waves.period_estimate,
          ai_wave_notes := some v.waves.notes,
          ai_weather_condition := some v.weather.condition,
          ai_wind_estimate := some v.weather.wind_estimate,
          ai_wind_direction := v.weather.wind_direction_visual,
          ai_visibility := some v.weather.visibility,
          ai_weather_notes := some v.weather.notes,
          ai_current_danger_level := some v.currents.danger_level,
          ai_current_rip_detected := some v.currents.rip_current_detected,
          ai_current_indicators := v.currents.indicators,
          ai_current_notes := some v.currents.notes,
          ai_beach_score := some v.overall.beach_score,
          ai_surf_score := v.overall.surf_score,
          ai_summary := some v.overall.summary,
          ai_best_for := v.overall.best_for }
    | none => obs
  obs

/-- Step 2 of `process_frame` (person detection): runs iff a detector is
configured and the camera is working; `except Exception` leaves the result
absent. -/
def person_stage (deps : PipelineDeps) (local_result : LocalAnalysisResult) :
    Option PersonDetectionResult :=
  match deps.personDetector with
  | some beh =>
    if local_result.camera_status.status = "working" then
      match beh with
      | .ok r => some r
      | .error _ => none
    else none
  | none => none

/-- Step 3 of `process_frame` (weather): runs iff a weather client is
configured; `except WeatherAPIError` and `except Exception` both leave the
data absent. -/
def weather_stage (deps : PipelineDeps) : Option WeatherAPIData :=
  match deps.weatherClient with
  | some beh =>
    match beh with
    | .ok w => some w
    | .error _ => none
  | none => none

/-- Step 4 of `process_frame` (Claude Vision), the `if/elif/elif` chain
(each branch also tests `use_ai and self._vision`; here the surrounding
`Option` match).  Returns
`(vision_result, error_message, model_used, attempted)`, where `attempted`
records whether `self._vision.analyze_frame` was invoked. -/
def vision_stage (deps : PipelineDeps) (local_result : LocalAnalysisResult) (use_ai : Bool) :
    Option VisionAnalysis × Option String × Option String × Bool :=
  match deps.visionClient with
  | some (beh, model) =>
    if use_ai ∧ local_result.camera_status.status = "working"
        ∧ local_result.image_quality.is_usable then
      match beh with
      | .ok v => (some v, none, some model, true)
      | .error e => (none, some e.msg, none, true)
    else if use_ai ∧ local_result.camera_status.status ≠ "working" then
      (none, some ("Camera " ++ local_result.camera_status.status ++ ": "
        ++ local_result.camera_status.reason), none, false)
    else if use_ai ∧ ¬ (local_result.image_quality.is_usable = true) then
      (none, some ("Image unusable: " ++ formatStrList local_result.image_quality.issues),
        none, false)
    else (none, none, none, false)
  | none => (none, none, none, false)

/-- `AnalysisPipeline.process_frame(frame, beach, use_ai)`.  Stage 1
(`self._image_analyzer.analyze`) is not `try`-wrapped: an analyzer
exception propagates.  On a vision success `model_used` is set from
`self._vision._settings.model`. -/
def process_frame (deps : PipelineDeps) (frame : GrabbedFrame) (beach : BeachConfig)
    (use_ai : Bool) (elapsed_ms : ℤ) : Except PyExc (Observation × Bool) :=
  match deps.analyzerResult with
  | .error e => .error e
  | .ok local_result =>
    .ok (merge_results beach frame local_result (person_stage deps local_result)
      (weather_stage deps) (vision_stage deps local_result use_ai).1
      (vision_stage deps local_result use_ai).2.2.1 elapsed_ms
      (vision_stage deps local_result use_ai).2.1,
      (vision_stage deps local_result use_ai).2.2.2)

/-- Claim C4: `process_frame` never raises for any behaviour of the
detection, weather and reasoning-service collaborators (the local analyzer
is not one of them — its call is not `try`-wrapped), and each stage's
failure shows up only as an absent field or as the `error_message`
annotation. -/
def ProcessFrameTotalSpec (deps : PipelineDeps) (frame : GrabbedFrame) (beach : BeachConfig)
    (use_ai : Bool) (elapsed_ms : ℤ) : Prop :=
  ∀ r, deps.analyzerResult = .ok r →
    ∃ obs att, process_frame deps frame beach use_ai elapsed_ms = .ok (obs, att) ∧
      (∀ e, deps.personDetector = some (.error e) → obs.person_count = none) ∧
      (∀ e, deps.weatherClient = some (.error e) → obs.weather_temperature_c = none) ∧
      (∀ beh model e, deps.visionClient = some (beh, model) → beh = .error e →
        obs.ai_beach_score = none ∧
        ((use_ai = true ∧ r.camera_status.status = "working"
            ∧ r.image_quality.is_usable = true) →
          obs.error_message = some e.msg))

/-- Claim C1 (amended): the reasoning-service stage is attempted iff
escalation is enabled (`use_ai`) AND a vision client is configured AND the
camera status is `"working"` AND the image-quality verdict is usable; and
whenever `use_ai` holds and a vision client is configured, a skip (camera
not working / image unusable) or a failure of the attempted stage sets
`error_message` to the corresponding human-readable reason. -/
def EscalationSpec (deps : PipelineDeps) (frame : GrabbedFrame) (beach : BeachConfig)
    (use_ai : Bool) (elapsed_ms : ℤ) : Prop :=
  ∀ r, deps.analyzerResult = .ok r →
    ∃ obs att, process_frame deps frame beach use_ai elapsed_ms = .ok (obs, att) ∧
      (att = true ↔ (use_ai = true ∧ deps.visionClient.isSome = true
        ∧ r.camera_status.status = "working" ∧ r.image_quality.is_usable = true)) ∧
      (∀ beh model, deps.visionClient = some (beh, model) → use_ai = true →
        (¬ r.camera_status.status = "working" →
          obs.error_message = some ("Camera " ++ r.camera_status.status ++ ": "
            ++ r.camera_status.reason)) ∧
        (r.camera_status.status = "working" → r.image_quality.is_usable = false →
          obs.error_message = some ("Image unusable: "
            ++ formatStrList r.image_quality.issues)) ∧
        (∀ e, beh = .error e → r.camera_status.status = "working" →
          r.image_quality.is_usable = true → obs.error_message = some e.msg))

/-- A frame as produced by the grabber. -/
def frameEx : GrabbedFrame :=
  { beach_id := "b1", image_bytes := 1, captured_at := "t0", source_url := "u0" }

/-- Pipeline with no vision client; the analyzer reports a working camera
and a usable image (the model defaults). -/
def depsNoVision : PipelineDeps := { analyzerResult := .ok {} }

/-- Pipeline whose collaborators all throw. -/
def depsAllFail : PipelineDeps :=
  { analyzerResult := .ok {},
    personDetector := some (.error (.otherError ("yolo oom"))),
    weatherClient := some (.error (.weatherAPIError ("weather down"))),
    visionClient := some (.error (.otherError ("api 500")), "m1") }

/-- Pipeline whose vision call raises `RateLimitError`. -/
def depsQuota : PipelineDeps :=
  { analyzerResult := .ok {},
    visionClient :=
      some (.error (.rateLimitError ("Daily API limit reached (500). Resets at midnight UTC.")),
        "m1") }

/-! ## Storage — `coastwatch/storage/repository.py` and `database.py`

The `observations` table is a list of rows plus the next `AUTOINCREMENT`
row id.  TEXT timestamps are compared as strings, exactly like SQLite
compares the ISO-8601 `captured_at` TEXT column.  The two JSON-serialized
list columns hold the list itself (`json.dumps`/`json.loads` are mutually
inverse on lists of strings), `NULL` being `none`. -/

structure ObsRow where
  id : ℕ
  beach_id : String
  captured_at : String
  source_url : String := ""
  camera_status : Option String := none
  camera_status_reason : Option String := none
  person_count : Option ℤ := none
  person_confidence : Option ℚ := none
  detection_method : Option String := none
  cv_wave_level : Option String := none
  cv_whitecap_ratio : Option ℚ := none
  cv_edge_density : Option ℚ := none
  cv_wave_confidence : Option ℚ := none
  cv_image_quality : Option ℚ := none
  weather_temperature_c : Option ℚ := none
  weather_feels_like_c : Option ℚ := none
  weather_humidity_pct : Option ℤ := none
  weather_wind_speed_kmh : Option ℚ := none
  weather_wind_direction : Option String := none
  weather_wind_gust_kmh : Option ℚ := none
  weather_condition : Option String := none
  weather_description : Option String := none
  weather_precipitation_mm : Option ℚ := none
  weather_visibility_km : Option ℚ := none
  weather_uv_index : Option ℚ := none
  ai_crowd_level : Option String := none
  ai_crowd_count : Option ℤ := none
  ai_crowd_distribution : Option String := none
  ai_crowd_notes : Option String := none
  ai_wave_size : Option String := none
  ai_wave_quality : Option String := none
  ai_wave_type : Option String := none
  ai_wave_period : Option String := none
  ai_wave_notes : Option String := none
  ai_weather_condition : Option String := none
  ai_wind_estimate : Option String := none
  ai_wind_direction : Option String := none
  ai_visibility : Option String := none
  ai_weather_notes : Option String := none
  ai_current_danger_level : Option String := none
  ai_current_rip_detected : Option ℤ := none
  ai_current_indicators : Option (List String) := none
  ai_current_notes : Option String := none
  ai_beach_score : Option ℚ := none
  ai_surf_score : Option ℚ := none
  ai_summary : Option String := none
  ai_best_for : Option (List String) := none
  analysis_model : Option String := none
  processing_time_ms : Option ℤ := none
  error_message : Option String := none
  created_at : String := ""
deriving Repr, DecidableEq

structure Database where
  rows : List ObsRow
  nextId : ℕ
deriving Repr, DecidableEq

/-- `ObservationRepository.save`: serialize the two list fields (a falsy —
empty — list becomes SQL `NULL`), `int()` the rip flag, `INSERT`, return
`cursor.lastrowid`.  `created_at` gets the column default (`nowStr`). -/
def save_row (db : Database) (obs : Observation) (nowStr : String) : ObsRow :=
  let best_for_json : Option (List String) :=
    if obs.ai_best_for ≠ [] then some obs.ai_best_for else none
  let indicators_json : Option (List String) :=
    if obs.ai_current_indicators ≠ [] then some obs.ai_current_indicators else none
  let rip_int : Option ℤ :=
    match obs.ai_current_rip_detected with
    | some b => some (if b then 1 else 0)
    | none => none
  { id := db.nextId
    beach_id := obs.beach_id
    captured_at := obs.captured_at
    source_url := obs.source_url
    camera_status := obs.camera_status
    camera_status_reason := obs.camera_status_reason
    person_count := obs.person_count
    person_confidence := obs.person_confidence
    detection_method := obs.detection_method
    cv_wave_level := obs.cv_wave_level
    cv_whitecap_ratio := obs.cv_whitecap_ratio
    cv_edge_density := obs.cv_edge_density
    cv_wave_confidence := obs.cv_wave_confidence
    cv_image_quality := obs.cv_image_quality
    weather_temperature_c := obs.weather_temperature_c
    weather_feels_like_c := obs.weather_feels_like_c
    weather_humidity_pct := obs.weather_humidity_pct
    weather_wind_speed_kmh := obs.weather_wind_speed_kmh
    weather_wind_direction := obs.weather_wind_direction
    weather_wind_gust_kmh := obs.weather_wind_gust_kmh
    weather_condition := obs.weather_condition
    weather_description := obs.weather_description
    weather_precipitation_mm := obs.weather_precipitation_mm
    weather_visibility_km := obs.weather_visibility_km
    weather_uv_index := obs.weather_uv_index
    ai_crowd_level := obs.ai_crowd_level
    ai_crowd_count := obs.ai_crowd_count
    ai_crowd_distribution := obs.ai_crowd_distribution
    ai_crowd_notes := obs.ai_crowd_notes
    ai_wave_size := obs.ai_wave_size
    ai_wave_quality := obs.ai_wave_quality
    ai_wave_type := obs.ai_wave_type
    ai_wave_period := obs.ai_wave_period
    ai_wave_notes := obs.ai_wave_notes
    ai_weather_condition := obs.ai_weather_condition
    ai_wind_estimate := obs.ai_wind_estimate
    ai_wind_direction := obs.ai_wind_direction
    ai_visibility := obs.ai_visibility
    ai_weather_notes := obs.ai_weather_notes
    ai_current_danger_level := obs.ai_current_danger_level
    ai_current_rip_detected := rip_int
    ai_current_indicators := indicators_json
    ai_current_notes := obs.ai_current_notes
    ai_beach_score := obs.ai_beach_score
    ai_surf_score := obs.ai_surf_score
    ai_summary := obs.ai_summary
    ai_best_for := best_for_json
    analysis_model := obs.analysis_model
    processing_time_ms := obs.processing_time_ms
    error_message := obs.error_message
    created_at := nowStr }

def save (db : Database) (obs : Observation) (nowStr : String) : ℕ × Database :=
  (db.nextId, { rows := db.rows ++ [save_row db obs nowStr], nextId := db.nextId + 1 })

/-- The state of the `Observation` object when `save` returns, field by
field: the body of `save` reads `obs` but never assigns to any of its
attributes (in particular `obs.id` is not set to the new row id, which is
only returned), so every field carries its pre-call value. -/
def save_post_state (obs : Observation) : Observation :=
  { beach_id := obs.beach_id
    captured_at := obs.captured_at
    source_url := obs.source_url
    camera_status := obs.camera_status
    camera_status_reason := obs.camera_status_reason
    person_count := obs.person_count
    person_confidence := obs.person_confidence
    detection_method := obs.detection_method
    cv_wave_level := obs.cv_wave_level
    cv_whitecap_ratio := obs.cv_whitecap_ratio
    cv_edge_density := obs.cv_edge_density
    cv_wave_confidence := obs.cv_wave_confidence
    cv_image_quality := obs.cv_image_quality
    weather_temperature_c := obs.weather_temperature_c
    weather_feels_like_c := obs.weather_feels_like_c
    weather_humidity_pct := obs.weather_humidity_pct
    weather_wind_speed_kmh := obs.weather_wind_speed_kmh
    weather_wind_direction := obs.weather_wind_direction
    weather_wind_gust_kmh := obs.weather_wind_gust_kmh
    weather_condition := obs.weather_condition
    weather_description := obs.weather_description
    weather_precipitation_mm := obs.weather_precipitation_mm
    weather_visibility_km := obs.weather_visibility_km
    weather_uv_index := obs.weather_uv_index
    ai_crowd_level := obs.ai_crowd_level
    ai_crowd_count := obs.ai_crowd_count
    ai_crowd_distribution := obs.ai_crowd_distribution
    ai_crowd_notes := obs.ai_crowd_notes
    ai_wave_size := obs.ai_wave_size
    ai_wave_quality := obs.ai_wave_quality
    ai_wave_type := obs.ai_wave_type
    ai_wave_period := obs.ai_wave_period
    ai_wave_notes := obs.ai_wave_notes
    ai_weather_condition := obs.ai_weather_condition
    ai_wind_estimate := obs.ai_wind_estimate
    ai_wind_direction := obs.ai_wind_direction
    ai_visibility := obs.ai_visibility
    ai_weather_notes := obs.ai_weather_notes
    ai_current_danger_level := obs.ai_current_danger_level
    ai_current_rip_detected := obs.ai_current_rip_detected
    ai_current_indicators := obs.ai_current_indicators
    ai_current_notes := obs.ai_current_notes
    ai_beach_score := obs.ai_beach_score
    ai_surf_score := obs.ai_surf_score
    ai_summary := obs.ai_summary
    ai_best_for := obs.ai_best_for
    analysis_model := obs.analysis_model
    processing_time_ms := obs.processing_time_ms
    error_message := obs.error_message
    id := obs.id }

/-- `ObservationRepository._row_to_obs`: decode the two JSON list columns
(`NULL`/falsy becomes `[]`), `bool()` the rip flag, drop `created_at` (the
legacy v0.1.0 columns are not part of this row model), keep the row `id`. -/
def row_to_obs (r : ObsRow) : Observation :=
  { beach_id := r.beach_id
    captured_at := r.captured_at
    source_url := r.source_url
    camera_status := r.camera_status
    camera_status_reason := r.camera_status_reason
    person_count := r.person_count
    person_confidence := r.person_confidence
    detection_method := r.detection_method
    cv_wave_level := r.cv_wave_level
    cv_whitecap_ratio := r.cv_whitecap_ratio
    cv_edge_density := r.cv_edge_density
    cv_wave_confidence := r.cv_wave_confidence
    cv_image_quality := r.cv_image_quality
    weather_temperature_c := r.weather_temperature_c
    weather_feels_like_c := r.weather_feels_like_c
    weather_humidity_pct := r.weather_humidity_pct
    weather_wind_speed_kmh := r.weather_wind_speed_kmh
    weather_wind_direction := r.weather_wind_direction
    weather_wind_gust_kmh := r.weather_wind_gust_kmh
    weather_condition := r.weather_condition
    weather_description := r.weather_description
    weather_precipitation_mm := r.weather_precipitation_mm
    weather_visibility_km := r.weather_visibility_km
    weather_uv_index := r.weather_uv_index
    ai_crowd_level := r.ai_crowd_level
    ai_crowd_count := r.ai_crowd_count
    ai_crowd_distribution := r.ai_crowd_distribution
    ai_crowd_notes := r.ai_crowd_notes
    ai_wave_size := r.ai_wave_size
    ai_wave_quality := r.ai_wave_quality
    ai_wave_type := r.ai_wave_type
    ai_wave_period := r.ai_wave_period
    ai_wave_notes := r.ai_wave_notes
    ai_weather_condition := r.ai_weather_condition
    ai_wind_estimate := r.ai_wind_estimate
    ai_wind_direction := r.ai_wind_direction
    ai_visibility := r.ai_visibility
    ai_weather_notes := r.ai_weather_notes
    ai_current_danger_level := r.ai_current_danger_level
    ai_current_rip_detected := r.ai_current_rip_detected.map (fun i => i != 0)
    ai_current_indicators := r.ai_current_indicators.getD []
    ai_current_notes := r.ai_current_notes
    ai_beach_score := r.ai_beach_score
    ai_surf_score := r.ai_surf_score
    ai_summary := r.ai_summary
    ai_best_for := r.ai_best_for.getD []
    analysis_model := r.analysis_model
    processing_time_ms := r.processing_time_ms
    error_message := r.error_message
    id := some r.id }

/-- SQLite compares the TEXT `captured_at` column bytewise (`memcmp`); on
ISO-8601 strings that is lexicographic order on the characters, i.e. the
lexicographic order of the underlying character lists.  (Core's
`String.lt` is the same relation.) -/
def textLt (a b : String) : Prop := a.data < b.data

def textLe (a b : String) : Prop := a.data ≤ b.data

instance : DecidableRel textLt := fun a b => inferInstanceAs (Decidable (a.data < b.data))

instance : DecidableRel textLe := fun a b => inferInstanceAs (Decidable (a.data ≤ b.data))

/-- `MAX` of two TEXT values. -/
def textMax (a b : String) : String := if textLe a b then b else a

/-- `ORDER BY captured_at DESC` as a relation (SQLite leaves ties in an
unspecified order; the model picks a stable sort). -/
def capturedGE (a b : ObsRow) : Prop := textLe b.captured_at a.captured_at

instance : DecidableRel capturedGE :=
  fun a b => inferInstanceAs (Decidable (textLe b.captured_at a.captured_at))

instance : IsTotal ObsRow capturedGE :=
  ⟨fun a b => le_total b.captured_at.data a.captured_at.data⟩

instance : IsTrans ObsRow capturedGE :=
  ⟨fun _ _ _ h1 h2 => le_trans (α := List Char) h2 h1⟩

/-- `ObservationRepository.get_latest`:
`WHERE beach_id = ? ORDER BY captured_at DESC LIMIT 1`. -/
def get_latest (db : Database) (bid : String) : Option Observation :=
  (List.insertionSort capturedGE
    (db.rows.filter (fun r => r.beach_id == bid))).head?.map row_to_obs

/-- `COALESCE(o.ai_beach_score, 5.0)`. -/
def coalesce_score (r : ObsRow) : ℚ := r.ai_beach_score.getD 5

/-- `ORDER BY COALESCE(o.ai_beach_score, 5.0) DESC` as a relation. -/
def scoreGE (a b : ObsRow) : Prop := coalesce_score b ≤ coalesce_score a

instance : DecidableRel scoreGE :=
  fun a b => inferInstanceAs (Decidable (coalesce_score b ≤ coalesce_score a))

instance : IsTotal ObsRow scoreGE := ⟨fun a b => le_total (coalesce_score b) (coalesce_score a)⟩

instance : IsTrans ObsRow scoreGE := ⟨fun _ _ _ h1 h2 => le_trans h2 h1⟩

/-- `MAX(captured_at)` over a group of rows. -/
def max_captured (rs : List ObsRow) : Option String :=
  match rs.map (fun r => r.captured_at) with
  | [] => none
  | c :: cs => some (cs.foldl textMax c)

/-- `ObservationRepository.get_best_beaches(max_age_minutes)` against the
age cutoff string `datetime('now', '-N minutes')`: the inner
`GROUP BY beach_id / MAX(captured_at)` over the windowed rows, the join
back onto the table on `(beach_id, captured_at)`, then
`ORDER BY COALESCE(ai_beach_score, 5.0) DESC`. -/
def windowed_rows (db : Database) (cutoff : String) : List ObsRow :=
  db.rows.filter (fun r => decide (textLt cutoff r.captured_at))

/-- The inner `SELECT beach_id, MAX(captured_at) ... GROUP BY beach_id`
over the windowed rows. -/
def score_groups (db : Database) (cutoff : String) : List (String × String) :=
  (((windowed_rows db cutoff).map (fun r => r.beach_id)).dedup).filterMap
    (fun bid =>
      (max_captured ((windowed_rows db cutoff).filter (fun r => r.beach_id == bid))).map
        (fun m => (bid, m)))

/-- The `INNER JOIN ... ON o.beach_id = t.beach_id AND o.captured_at =
t.latest` back onto the full table. -/
def joined_rows (db : Database) (cutoff : String) : List ObsRow :=
  db.rows.filter
    (fun o => (score_groups db cutoff).any (fun g => o.beach_id == g.1 && o.captured_at == g.2))

def get_best_beaches (db : Database) (cutoff : String) : List Observation :=
  (List.insertionSort scoreGE (joined_rows db cutoff)).map row_to_obs

/-- Claim C7: save-then-`get_latest` round-trips non-empty
hazard-indicator and activity lists, content and order intact, whenever
the saved observation is strictly newer than every stored row for its
site. -/
def RoundTripSpec (db : Database) (obs : Observation) (nowStr : String) : Prop :=
  obs.ai_current_indicators ≠ [] → obs.ai_best_for ≠ [] →
  (∀ r ∈ db.rows, r.beach_id = obs.beach_id → textLt r.captured_at obs.captured_at) →
  ∃ o, get_latest (save db obs nowStr).2 obs.beach_id = some o ∧
    o.ai_current_indicators = obs.ai_current_indicators ∧
    o.ai_best_for = obs.ai_best_for

/-- Claim C9: an empty list field is stored as SQL `NULL` and read back as
`[]`, indistinguishable from an absent list. -/
def EmptyListNormSpec (db : Database) (obs : Observation) (nowStr : String) : Prop :=
  obs.ai_best_for = [] → obs.ai_current_indicators = [] →
  ∃ row, (save db obs nowStr).2.rows = db.rows ++ [row] ∧
    row.ai_best_for = none ∧ row.ai_current_indicators = none ∧
    (row_to_obs row).ai_best_for = [] ∧ (row_to_obs row).ai_current_indicators = []

/-- Observations and rows used in the storage claims. -/
def obsC7 : Observation :=
  { beach_id := "b1", captured_at := "2026-01-01T10:00",
    ai_current_indicators := ["channel of calmer water", "foam moving seaward"],
    ai_best_for := ["surfing", "walking"],
    ai_current_rip_detected := some true }

def obsEmpty : Observation :=
  { beach_id := "b1", captured_at := "2026-01-01T10:00" }

def dbEmptyEx : Database := { rows := [], nextId := 1 }

/-- Three sites, one observation each within the age window: scores
`7.0`, `NULL`, `9.0`. -/
def dbC6 : Database :=
  { rows :=
      [ { id := 1, beach_id := "b7", captured_at := "2026-01-01T10:00",
          ai_beach_score := some 7 },
        { id := 2, beach_id := "bnull", captured_at := "2026-01-01T10:01",
          ai_beach_score := none },
        { id := 3, beach_id := "b9", captured_at := "2026-01-01T10:02",
          ai_beach_score := some 9 } ],
    nextId := 4 }

/-- Claim C6 (amended): each returned element is its site's most recent
in-window row, every site with an in-window row is represented, the order
is by `COALESCE(score, 5.0)` descending — and on sites scoring
`{7.0, NULL, 9.0}` the `NULL` site ranks last (default `5.0 < 7.0`), not
in the middle. -/
def BestBeachesSpec (db : Database) (cutoff : String) : Prop :=
  ((get_best_beaches db cutoff).Pairwise
    (fun a b => b.ai_beach_score.getD 5 ≤ a.ai_beach_score.getD 5)) ∧
  (∀ o ∈ get_best_beaches db cutoff, ∃ r ∈ db.rows, row_to_obs r = o ∧
    textLt cutoff r.captured_at ∧
    ∀ r2 ∈ db.rows, r2.beach_id = r.beach_id → textLt cutoff r2.captured_at →
      textLe r2.captured_at r.captured_at) ∧
  (∀ r ∈ db.rows, textLt cutoff r.captured_at →
    ∃ o ∈ get_best_beaches db cutoff, o.beach_id = r.beach_id) ∧
  ((get_best_beaches dbC6 "2026-01-01T09:00").map (fun o => o.beach_id)
    = ["b9", "b7", "bnull"])

/-! ## Capture scheduler — `coastwatch/capture/scheduler.py` -/

/-- The collaborators of one `run_once` cycle beyond the grabber: the
pipeline's collaborator behaviour per beach id, and whether `repo.save`
raises (`PersistenceError`) for the observation of a given beach id. -/
structure SchedulerDeps where
  pipeDeps : String → PipelineDeps
  saveRaises : String → Bool

/-- The `if beach_ids:` subset filter of `run_once` (an empty list is
falsy in Python, so it selects all beaches, like `None`). -/
def select_beaches (beaches : List BeachConfig) (beach_ids : Option (List String)) :
    List BeachConfig :=
  match beach_ids with
  | some ids => if ids ≠ [] then beaches.filter (fun b => ids.contains b.id) else beaches
  | none => beaches

/-- The body of the `for result in results` loop of `run_once` —
`next(b for b in beaches if b.id == result.beach_id)`, `process_frame`,
`repo.save`, `successful.append`; any exception inside the per-site `try`
is logged and skips only that site — acting on the
`(successful, repository-state)` accumulator. -/
def run_step (sdeps : SchedulerDeps) (use_ai : Bool) (elapsed_ms : ℤ) (nowStr : String)
    (beaches2 : List BeachConfig) (acc : List String × Database) (result : GrabResult) :
    List String × Database :=
  if result.success = false then acc
  else
    match beaches2.find? (fun b => b.id == result.beach_id) with
    | none => acc
    | some beach =>
      match result.frame with
      | none => acc
      | some frame =>
        match process_frame (sdeps.pipeDeps beach.id) frame beach use_ai elapsed_ms with
        | .error _ => acc
        | .ok (obs, _) =>
          if sdeps.saveRaises beach.id then acc
          else (acc.1 ++ [result.beach_id], (save acc.2 obs nowStr).2)

/-- `CaptureScheduler.run_once`: subset selection, `grab_all`, then the
per-result loop.  Returns the successful beach ids and the final
database. -/
def run_once (cfg : FrameGrabberCfg) (net : Net) (now : String) (sdeps : SchedulerDeps)
    (use_ai : Bool) (elapsed_ms : ℤ) (nowStr : String) (beaches : List BeachConfig)
    (beach_ids : Option (List String)) (db : Database) : List String × Database :=
  (grab_all cfg net now (select_beaches beaches beach_ids)).foldl
    (run_step sdeps use_ai elapsed_ms nowStr (select_beaches beaches beach_ids)) ([], db)

/-- Whether one beach's whole fetch-analyze-persist chain succeeds in a
cycle. -/
def beach_cycle_success (cfg : FrameGrabberCfg) (net : Net) (now : String)
    (sdeps : SchedulerDeps) (use_ai : Bool) (elapsed_ms : ℤ) (b : BeachConfig) : Bool :=
  match (grab_frame cfg net b now).1 with
  | .error _ => false
  | .ok frame =>
    match process_frame (sdeps.pipeDeps b.id) frame b use_ai elapsed_ms with
    | .error _ => false
    | .ok _ => !(sdeps.saveRaises b.id)

/-- A third beach whose primary endpoint works. -/
def beachThree : BeachConfig :=
  { id := "b3", name := "Three", region := "north",
    coordinates := { latitude := 0, longitude := 0 },
    webcam := { snapshot_url := "http://fallback/a.jpg" } }

/-- Scheduler collaborators: an OpenCV-only pipeline per site, saves never
raise. -/
def sdepsEx : SchedulerDeps :=
  { pipeDeps := fun _ => depsNoVision, saveRaises := fun _ => false }

/-- Claim C5: `run_once` returns exactly the ids of the selected beaches
whose fetch succeeded and whose analyze-and-persist completed, in order;
the cycle appends exactly one row per returned id (so a site whose fetch
failed has nothing persisted); each site's outcome depends only on its own
collaborators. -/
def RunOnceSpec (cfg : FrameGrabberCfg) (net : Net) (now : String) (sdeps : SchedulerDeps)
    (use_ai : Bool) (elapsed_ms : ℤ) (nowStr : String) (beaches : List BeachConfig)
    (beach_ids : Option (List String)) (db : Database) : Prop :=
  (beaches.map (fun b => b.id)).Nodup →
    (run_once cfg net now sdeps use_ai elapsed_ms nowStr beaches beach_ids db).1
      = ((select_beaches beaches beach_ids).filter
          (beach_cycle_success cfg net now sdeps use_ai elapsed_ms)).map (fun b => b.id) ∧
    ∃ newRows,
      (run_once cfg net now sdeps use_ai elapsed_ms nowStr beaches beach_ids db).2.rows
        = db.rows ++ newRows ∧
      newRows.map (fun r => r.beach_id)
        = (run_once cfg net now sdeps use_ai elapsed_ms nowStr beaches beach_ids db).1

end CoastWatch

namespace CoastWatch

@[simp] lemma refill_rpm (s : LimiterState) (now : ℚ) : (refill s now).rpm = s.rpm := rfl

@[simp] lemma refill_daily (s : LimiterState) (now : ℚ) : (refill s now).daily = s.daily := rfl

@[simp] lemma refill_dailyUsed (s : LimiterState) (now : ℚ) :
    (refill s now).dailyUsed = s.dailyUsed := rfl

@[simp] lemma refill_dailyResetDate (s : LimiterState) (now : ℚ) :
    (refill s now).dailyResetDate = s.dailyResetDate := rfl

@[simp] lemma refill_lastRefill (s : LimiterState) (now : ℚ) :
    (refill s now).lastRefill = now := rfl

lemma refill_tokens (s : LimiterState) (now : ℚ) :
    (refill s now).tokens
      = min ((s.rpm : ℚ)) (s.tokens + (now - s.lastRefill) * ((s.rpm : ℚ) / 60)) := rfl

@[simp] lemma consume_rpm (s : LimiterState) : (consume s).rpm = s.rpm := rfl

@[simp] lemma consume_dailyUsed (s : LimiterState) : (consume s).dailyUsed = s.dailyUsed + 1 := rfl

@[simp] lemma consume_dailyResetDate (s : LimiterState) :
    (consume s).dailyResetDate = s.dailyResetDate := rfl

lemma rollover_self (s : LimiterState) (today : ℤ) (hdate : today = s.dailyResetDate) :
    rollover s today = s := by
  rw [rollover, if_neg (by simp [hdate])]

lemma rollover_reset (s : LimiterState) (today : ℤ) (hdate : today ≠ s.dailyResetDate) :
    rollover s today = { s with dailyUsed := 0, dailyResetDate := today } := by
  rw [rollover, if_pos hdate]

lemma acquire_quota (s : LimiterState) (now : ℚ) (today : ℤ) (fuel : ℕ)
    (hdate : today = s.dailyResetDate) (hcap : s.daily ≤ s.dailyUsed) :
    acquire fuel s now today =
      .quotaError ("Daily API limit reached (" ++ toString s.daily ++ "). Resets at midnight UTC.") s := by
  rw [acquire, rollover_self s today hdate, if_pos hcap]

lemma acquire_now_granted (s : LimiterState) (now : ℚ) (today : ℤ) (fuel : ℕ)
    (hdate : today = s.dailyResetDate) (hcap : s.dailyUsed < s.daily)
    (h1 : 1 ≤ (refill s now).tokens) :
    acquire (fuel + 1) s now today = .granted (consume (refill s now)) 0 := by
  rw [acquire, rollover_self s today hdate, if_neg (Nat.not_le_of_lt hcap)]
  rw [acquireLoop, if_pos h1]

lemma acquire_wait_granted (s : LimiterState) (now : ℚ) (today : ℤ) (fuel : ℕ)
    (hdate : today = s.dailyResetDate) (hcap : s.dailyUsed < s.daily)
    (h1 : ¬ 1 ≤ (refill s now).tokens)
    (h2 : 1 ≤ (refill (refill s now) (now + waitTime (refill s now))).tokens) :
    acquire (fuel + 2) s now today =
      .granted (consume (refill (refill s now) (now + waitTime (refill s now))))
        (waitTime (refill s now) + 0) := by
  rw [acquire, rollover_self s today hdate, if_neg (Nat.not_le_of_lt hcap)]
  show acquireLoop (fuel + 1 + 1) s now = _
  rw [acquireLoop, if_neg h1, acquireLoop, if_pos h2]

lemma acquireLoop_grants (n : ℕ) (s : LimiterState) (now : ℚ) (hrpm : 1 ≤ s.rpm) :
    ∃ s' w, acquireLoop (n + 2) s now = .granted s' w ∧
      s'.dailyUsed = s.dailyUsed + 1 ∧ s'.dailyResetDate = s.dailyResetDate := by
  have hrpmQ : (1 : ℚ) ≤ (s.rpm : ℚ) := by exact_mod_cast hrpm
  have hpos : (0 : ℚ) < (s.rpm : ℚ) / 60 := by positivity
  by_cases h1 : 1 ≤ (refill s now).tokens
  · refine ⟨consume (refill s now), 0, ?_, by simp, by simp⟩
    show acquireLoop (n + 1 + 1) s now = _
    rw [acquireLoop, if_pos h1]
  · have h2 : 1 ≤ (refill (refill s now) (now + waitTime (refill s now))).tokens := by
      rw [refill_tokens, refill_lastRefill, refill_rpm]
      have harg : now + waitTime (refill s now) - now = waitTime (refill s now) := by ring
      rw [harg, waitTime, refill_rpm, div_mul_cancel₀ _ (ne_of_gt hpos)]
      have hsum : (refill s now).tokens + (1 - (refill s now).tokens) = 1 := by ring
      rw [hsum]
      exact le_min hrpmQ le_rfl
    refine ⟨consume (refill (refill s now) (now + waitTime (refill s now))),
      waitTime (refill s now) + 0, ?_, by simp, by simp⟩
    show acquireLoop (n + 1 + 1) s now = _
    rw [acquireLoop, if_neg h1, acquireLoop, if_pos h2]

lemma scen_step (k : ℕ) (hk : k ≤ 29) :
    acquire 2 (scenState k) 0 0 = .granted (scenState (k + 1)) 0 := by
  have hkQ : (k : ℚ) ≤ 29 := by exact_mod_cast hk
  have hk0 : (0 : ℚ) ≤ (k : ℚ) := Nat.cast_nonneg k
  have htok : (refill (scenState k) 0).tokens = 30 - (k : ℚ) := by
    rw [refill_tokens]
    simp only [scenState]
    rw [sub_self, zero_mul, add_zero]
    rw [min_eq_right (by push_cast; linarith)]
  have h1 : 1 ≤ (refill (scenState k) 0).tokens := by rw [htok]; linarith
  have hstep : acquire (1 + 1) (scenState k) 0 0 = .granted (consume (refill (scenState k) 0)) 0 :=
    acquire_now_granted (scenState k) 0 0 1 rfl (by simp [scenState]; omega) h1
  have hconsume : consume (refill (scenState k) 0) = scenState (k + 1) := by
    simp only [consume, refill, scenState]
    congr 1
    · rw [sub_self, zero_mul, add_zero]
      rw [min_eq_right (by push_cast; linarith)]
      push_cast
      ring
  rw [hconsume] at hstep
  exact hstep

lemma scen_last :
    acquire 2 (scenState 30) 0 0 =
      .granted (consume (refill (refill (scenState 30) 0)
        (0 + waitTime (refill (scenState 30) 0)))) (waitTime (refill (scenState 30) 0) + 0) := by
  have htok : (refill (scenState 30) 0).tokens = 0 := by
    rw [refill_tokens]
    simp only [scenState]
    push_cast
    norm_num
  have h1 : ¬ (1 : ℚ) ≤ (refill (scenState 30) 0).tokens := by rw [htok]; norm_num
  have h2 : 1 ≤ (refill (refill (scenState 30) 0)
      (0 + waitTime (refill (scenState 30) 0))).tokens := by
    rw [refill_tokens, refill_lastRefill, refill_rpm, htok]
    rw [waitTime, refill_rpm, htok]
    show (1 : ℚ) ≤ min ((((scenState 30).rpm : ℕ) : ℚ)) _
    simp only [scenState]
    push_cast
    norm_num
  exact acquire_wait_granted (scenState 30) 0 0 0 rfl (by simp [scenState]) h1 h2

lemma scen_wait : waitTime (refill (scenState 30) 0) + 0 = 2 := by
  have htok : (refill (scenState 30) 0).tokens = 0 := by
    rw [refill_tokens]
    simp only [scenState]
    push_cast
    norm_num
  rw [waitTime, refill_rpm, htok]
  simp only [scenState]
  push_cast
  norm_num

lemma scen_seq : ∀ d k, k + d = 30 →
    (acquireSeq (d + 1) 2 (scenState k) 0 0).map waitOf
      = List.replicate d (some 0) ++ [some 2] := by
  intro d
  induction d with
  | zero =>
    intro k hk
    obtain rfl : k = 30 := by omega
    show (acquireSeq (0 + 1) 2 (scenState 30) 0 0).map waitOf = _
    rw [acquireSeq, scen_last]
    show [AcquireOutcome.granted _ (waitTime (refill (scenState 30) 0) + 0)].map waitOf = _
    rw [scen_wait]
    simp [waitOf]
  | succ m ih =>
    intro k hk
    show (acquireSeq (m + 1 + 1) 2 (scenState k) 0 0).map waitOf = _
    rw [acquireSeq, scen_step k (by omega)]
    show (AcquireOutcome.granted (scenState (k + 1)) 0
        :: acquireSeq (m + 1) 2 (scenState (k + 1)) (0 + 0) 0).map waitOf = _
    rw [(by norm_num : (0 : ℚ) + 0 = 0)]
    rw [List.map_cons, ih (k + 1) (by omega)]
    simp [waitOf, List.replicate_succ]

lemma limiterInit_eq_scen : limiterInit 30 500 0 0 = scenState 0 := by
  simp only [limiterInit, scenState]
  congr 1
  push_cast
  ring

/-- **C2.** `TokenBucketRateLimiter.acquire`: the daily budget is checked
before the per-minute token; at the daily cap the call raises
`RateLimitError` immediately, without waiting, consuming a token or
incrementing the daily counter; otherwise it never fails (per-minute
exhaustion only waits).  A fresh `rpm=30` limiter grants 30 back-to-back
calls without waiting and makes the 31st wait `60/30 = 2` seconds; a
UTC-midnight rollover resets the daily counter. -/
theorem tokenBucket_acquire_correct (s : LimiterState) (now : ℚ) (today : ℤ)
    (hrpm : 1 ≤ s.rpm) : AcquireSpec s now today := by
  refine ⟨?_, ?_, ?_, ?_⟩
  · intro hdate hcap
    exact acquire_quota s now today 2 hdate hcap
  · intro fuel hfuel hlt
    obtain ⟨n, rfl⟩ : ∃ n, fuel = n + 2 := ⟨fuel - 2, by omega⟩
    by_cases hdate : today ≠ s.dailyResetDate
    · rw [if_pos hdate] at hlt ⊢
      rw [acquire, rollover_reset s today hdate]
      rw [if_neg (by exact Nat.not_le_of_lt hlt)]
      obtain ⟨s', w, h, hu, _⟩ :=
        acquireLoop_grants n { s with dailyUsed := 0, dailyResetDate := today } now hrpm
      exact ⟨s', w, h, by simpa using hu⟩
    · rw [if_neg hdate] at hlt ⊢
      rw [not_not] at hdate
      rw [acquire, rollover_self s today hdate]
      rw [if_neg (Nat.not_le_of_lt hlt)]
      obtain ⟨s', w, h, hu, _⟩ := acquireLoop_grants n s now hrpm
      exact ⟨s', w, h, hu⟩
  · rw [limiterInit_eq_scen]
    show (acquireSeq (30 + 1) 2 (scenState 0) 0 0).map waitOf = _
    exact scen_seq 30 0 (by omega)
  · intro hdate hdaily
    rw [acquire, rollover_reset s today hdate]
    rw [if_neg (by exact Nat.not_le_of_lt hdaily)]
    obtain ⟨s', w, h, hu, hd⟩ :=
      acquireLoop_grants 0 { s with dailyUsed := 0, dailyResetDate := today } now hrpm
    exact ⟨s', w, h, by simpa using hu, by simpa using hd⟩

lemma grab_go_nil (beachId now : String) (f : String → Except String ℕ × List GrabEvent)
    (tried : List String) (lastErr : Option String) :
    grab_frame_go beachId now f [] tried lastErr
      = (.error ⟨beachId, tried, lastErr⟩, []) := rfl

lemma grab_go_cons_ok (beachId now : String) (f : String → Except String ℕ × List GrabEvent)
    (url : String) (rest tried : List String) (lastErr : Option String) (b : ℕ)
    (hu : (f url).1 = .ok b) :
    grab_frame_go beachId now f (url :: rest) tried lastErr
      = (.ok { beach_id := beachId, image_bytes := b, captured_at := now, source_url := url },
          (f url).2) := by
  simp only [grab_frame_go, hu]

lemma grab_go_cons_err (beachId now : String) (f : String → Except String ℕ × List GrabEvent)
    (url : String) (rest tried : List String) (lastErr : Option String) (msg : String)
    (hu : (f url).1 = .error msg) :
    grab_frame_go beachId now f (url :: rest) tried lastErr
      = ((grab_frame_go beachId now f rest (tried ++ [url]) (some msg)).1,
          (f url).2 ++ (grab_frame_go beachId now f rest (tried ++ [url]) (some msg)).2) := by
  simp only [grab_frame_go, hu]

lemma grab_go_error (beachId now : String) (f : String → Except String ℕ × List GrabEvent) :
    ∀ (urls tried : List String) (lastErr : Option String) (e : WebcamUnavailable),
    (grab_frame_go beachId now f urls tried lastErr).1 = .error e →
    e.urls_tried = tried ++ urls ∧
      ∀ url ∈ urls, (f url).1.isOk = false := by
  intro urls
  induction urls with
  | nil =>
    intro tried lastErr e he
    rw [grab_go_nil] at he
    obtain rfl := (Except.error.inj he).symm
    exact ⟨by simp, by simp⟩
  | cons u rest ih =>
    intro tried lastErr e he
    cases hu : (f u).1 with
    | ok b =>
      rw [grab_go_cons_ok beachId now f u rest tried lastErr b hu] at he
      exact Except.noConfusion he
    | error m =>
      rw [grab_go_cons_err beachId now f u rest tried lastErr m hu] at he
      obtain ⟨h1, h2⟩ := ih (tried ++ [u]) (some m) e he
      refine ⟨by rw [h1, List.append_assoc]; rfl, ?_⟩
      intro url hurl
      rcases List.mem_cons.mp hurl with rfl | hmem
      · rw [hu]
        rfl
      · exact h2 url hmem

lemma grab_go_ok (beachId now : String) (f : String → Except String ℕ × List GrabEvent) :
    ∀ (pre : List String) (url : String) (post tried : List String) (lastErr : Option String)
      (b : ℕ),
    (∀ u ∈ pre, (f u).1.isOk = false) →
    (f url).1 = .ok b →
    (grab_frame_go beachId now f (pre ++ url :: post) tried lastErr).1 =
      .ok { beach_id := beachId, image_bytes := b, captured_at := now, source_url := url } := by
  intro pre
  induction pre with
  | nil =>
    intro url post tried lastErr b _ hok
    rw [List.nil_append, grab_go_cons_ok beachId now f url post tried lastErr b hok]
  | cons p pre ih =>
    intro url post tried lastErr b hpre hok
    have hp := hpre p (List.mem_cons_self p pre)
    cases hp' : (f p).1 with
    | ok bb =>
      rw [hp'] at hp
      simp [Except.isOk, Except.toBool] at hp
    | error m =>
      rw [List.cons_append,
        grab_go_cons_err beachId now f p (pre ++ url :: post) tried lastErr m hp']
      exact ih url post (tried ++ [p]) (some m) b
        (fun u hu => hpre u (List.mem_cons_of_mem _ hu)) hok

lemma fetch_go_cons_http (cfg : FrameGrabberCfg) (net : Net) (url : String) (i : ℕ)
    (rest : List ℕ) (m : String) (hi : net url i = .httpErr m)
    (hlt : i < cfg.max_retries - 1) :
    fetch_url_go cfg net url (i :: rest)
      = ((fetch_url_go cfg net url rest).1,
          .attempt url i :: .sleep (cfg.backoff * ((i : ℚ) + 1))
            :: (fetch_url_go cfg net url rest).2) := by
  simp only [fetch_url_go, hi, if_pos hlt]

lemma fetch_go_last_http (cfg : FrameGrabberCfg) (net : Net) (url : String) (i : ℕ)
    (rest : List ℕ) (m : String) (hi : net url i = .httpErr m)
    (hnlt : ¬ i < cfg.max_retries - 1) :
    fetch_url_go cfg net url (i :: rest) = (.error m, [.attempt url i]) := by
  simp only [fetch_url_go, hi, if_neg hnlt]

lemma retryEvents_cons (url : String) (b : ℚ) (mr i : ℕ) (l : List ℕ) :
    retryEvents url b mr (i :: l)
      = (if i < mr - 1 then [.attempt url i, .sleep (b * ((i : ℚ) + 1))]
          else [.attempt url i]) ++ retryEvents url b mr l := by
  simp [retryEvents]

lemma fetch_go_all_http (cfg : FrameGrabberCfg) (net : Net) (url : String) (msgs : ℕ → String)
    (hfail : ∀ i, net url i = .httpErr (msgs i)) :
    ∀ n s, 1 ≤ n → s + n = cfg.max_retries →
    fetch_url_go cfg net url (List.range' s n)
      = (.error (msgs (cfg.max_retries - 1)),
          retryEvents url cfg.backoff cfg.max_retries (List.range' s n)) := by
  intro n
  induction n with
  | zero => intro s h1 _; omega
  | succ m ih =>
    intro s _ hsum
    cases m with
    | zero =>
      obtain rfl : s = cfg.max_retries - 1 := by omega
      rw [List.range'_succ, List.range'_zero]
      rw [fetch_go_last_http cfg net url _ [] _ (hfail _) (by omega)]
      rw [retryEvents_cons, if_neg (by omega)]
      rfl
    | succ k =>
      have hlt : s < cfg.max_retries - 1 := by omega
      rw [List.range'_succ]
      rw [fetch_go_cons_http cfg net url s _ _ (hfail s) hlt]
      rw [ih (s + 1) (by omega) (by omega)]
      rw [retryEvents_cons, if_pos hlt]
      rfl

lemma retryEvents_countP (url : String) (b : ℚ) (mr : ℕ) :
    ∀ attempts, (retryEvents url b mr attempts).countP GrabEvent.isAttempt = attempts.length := by
  intro attempts
  induction attempts with
  | nil => rfl
  | cons i l ih =>
    rw [retryEvents_cons, List.countP_append, ih]
    by_cases h : i < mr - 1 <;> simp [h, List.countP_cons, GrabEvent.isAttempt] <;> omega

lemma retryEvents_sleeps (url : String) (b : ℚ) (mr : ℕ) :
    ∀ attempts, (retryEvents url b mr attempts).filterMap sleepOf
      = (attempts.filter (fun i => decide (i < mr - 1))).map (fun i => b * ((i : ℚ) + 1)) := by
  intro attempts
  induction attempts with
  | nil => rfl
  | cons i l ih =>
    rw [retryEvents_cons, List.filterMap_append, ih]
    by_cases h : i < mr - 1 <;> simp [h, sleepOf]

lemma range_filter_lt (mr : ℕ) (hmr : 1 ≤ mr) :
    (List.range mr).filter (fun i => decide (i < mr - 1)) = List.range (mr - 1) := by
  obtain ⟨k, rfl⟩ : ∃ k, mr = k + 1 := ⟨mr - 1, by omega⟩
  rw [List.range_succ, List.filter_append]
  have h1 : (List.range k).filter (fun i => decide (i < k + 1 - 1)) = List.range k := by
    apply List.filter_eq_self.mpr
    intro a ha
    simp only [decide_eq_true_eq]
    have := List.mem_range.mp ha
    omega
  have h2 : ([k]).filter (fun i => decide (i < k + 1 - 1)) = [] := by
    simp
  rw [h1, h2, List.append_nil]
  simp

/-- **C3 (amended).** `FrameGrabber.grab_frame` fails only after every
configured endpoint (primary plus fallbacks, in order) has been tried and
each fetch has failed; the first succeeding endpoint supplies the returned
bytes and is recorded as `source_url`; every plain-HTTP endpoint whose
attempts keep failing with transport-level errors is attempted exactly
`max_retries` times with linearly increasing backoff `backoff * attempt`
between attempts.  (As stated the claim is false for `windy://` endpoints:
see the counterexample.) -/
theorem grab_frame_endpoints (cfg : FrameGrabberCfg) (net : Net) (beach : BeachConfig)
    (now : String) : GrabFrameSpec cfg net beach now := by
  refine ⟨?_, ?_, ?_⟩
  · intro e he
    have h := grab_go_error beach.id now (fetch_url cfg net)
      (beach.webcam.snapshot_url :: beach.webcam.fallback_urls) [] none e he
    simpa using h
  · intro pre url post b hcons hpre hok
    rw [grab_frame, hcons]
    exact grab_go_ok beach.id now (fetch_url cfg net) pre url post [] none b hpre hok
  · intro url msgs hplain hmr hfail
    have hfu : fetch_url cfg net url = fetch_url_go cfg net url (List.range cfg.max_retries) := by
      rw [fetch_url, if_neg (by simp [hplain])]
    have hrange : List.range cfg.max_retries = List.range' 0 cfg.max_retries :=
      List.range_eq_range' cfg.max_retries
    have hcomp := fetch_go_all_http cfg net url msgs hfail cfg.max_retries 0 hmr (by omega)
    rw [hfu, hrange, hcomp]
    refine ⟨rfl, ?_, ?_⟩
    · show (retryEvents url cfg.backoff cfg.max_retries
          (List.range' 0 cfg.max_retries)).countP GrabEvent.isAttempt = cfg.max_retries
      rw [retryEvents_countP]
      simp [List.length_range']
    · show (retryEvents url cfg.backoff cfg.max_retries
          (List.range' 0 cfg.max_retries)).filterMap sleepOf = _
      rw [retryEvents_sleeps, ← hrange, range_filter_lt cfg.max_retries hmr]

/-- Witness for C3 (amended) on a two-endpoint beach: the primary always
fails, the fallback serves bytes `7`, and `grab_frame` returns the
fallback's bytes with the fallback URL as `source_url`. -/
theorem grab_frame_endpoints_witness :
    (grab_frame cfgEx (netOkAt ("http://fallback/a.jpg")) beachTwo "t0").1 =
      .ok { beach_id := "b1", image_bytes := 7, captured_at := "t0",
            source_url := "http://fallback/a.jpg" } :=
  (grab_frame_endpoints cfgEx (netOkAt ("http://fallback/a.jpg")) beachTwo "t0").2.1
    ["http://primary/a.jpg"] "http://fallback/a.jpg" [] 7 rfl (by decide) (by decide)

/-- **C3 (counterexample).** A `windy://` endpoint without an API key keeps
failing yet is attempted zero times — not `max_retries = 3` times — so the
claim that every endpoint that keeps failing gets exactly `max_retries`
attempts is false as stated. -/
theorem grab_frame_windy_counterexample :
    (grab_frame cfgEx netFail beachWindy "t0").1 =
      .error { beach_id := "w1", urls_tried := ["windy://abc"],
               last_error := some "WINDY_API_KEY not set. Get a free key at https://api.windy.com/webcams" } ∧
    (grab_frame cfgEx netFail beachWindy "t0").2.countP GrabEvent.isAttempt = 0 ∧
    cfgEx.max_retries = 3 := by
  refine ⟨?_, ?_, ?_⟩ <;> decide

/-- **C8.** `FrameGrabber.grab_all` returns exactly one `GrabResult` per
input beach, in input order (`result i` carries `beaches[i].id`), each
either success-with-frame or failure-with-error; one beach's failure never
removes or reorders another beach's result. -/
theorem grab_all_one_result_per_beach (cfg : FrameGrabberCfg) (net : Net) (now : String)
    (beaches : List BeachConfig) : GrabAllSpec cfg net now beaches := by
  have hlen : (grab_all cfg net now beaches).length = beaches.length := by
    simp [grab_all]
  refine ⟨hlen, ?_⟩
  intro i hi
  have hget : (grab_all cfg net now beaches).get ⟨i, hlen ▸ hi⟩
      = (fun b => match (grab_frame cfg net b now).1 with
          | .ok f => ({ beach_id := b.id, frame := some f } : GrabResult)
          | .error e => { beach_id := b.id, error := some e }) (beaches.get ⟨i, hi⟩) := by
    simp [grab_all, List.get_eq_getElem]
  rw [hget]
  cases hg : (grab_frame cfg net (beaches.get ⟨i, hi⟩) now).1 with
  | ok f =>
    rw [List.get_eq_getElem] at hg
    simp [hg]
  | error e =>
    rw [List.get_eq_getElem] at hg
    simp [hg]

/-- Witness for C8 on a concrete two-beach list (one failing endpoint,
one Windy endpoint). -/
theorem grab_all_one_result_per_beach_witness :
    GrabAllSpec cfgEx netFail "t0" [beachTwo, beachWindy] :=
  grab_all_one_result_per_beach cfgEx netFail "t0" [beachTwo, beachWindy]

lemma person_stage_err (deps : PipelineDeps) (lr : LocalAnalysisResult) (e : PyExc)
    (h : deps.personDetector = some (.error e)) : person_stage deps lr = none := by
  rw [person_stage, h]
  by_cases hs : lr.camera_status.status = "working" <;> simp [hs]

lemma weather_stage_err (deps : PipelineDeps) (e : PyExc)
    (h : deps.weatherClient = some (.error e)) : weather_stage deps = none := by
  rw [weather_stage, h]

lemma vision_stage_none (deps : PipelineDeps) (lr : LocalAnalysisResult) (use_ai : Bool)
    (h : deps.visionClient = none) :
    vision_stage deps lr use_ai = (none, none, none, false) := by
  rw [vision_stage, h]

lemma vision_stage_ok (deps : PipelineDeps) (lr : LocalAnalysisResult)
    (v : VisionAnalysis) (model : String)
    (h : deps.visionClient = some (.ok v, model))
    (hst : lr.camera_status.status = "working") (hus : lr.image_quality.is_usable = true) :
    vision_stage deps lr true = (some v, none, some model, true) := by
  simp only [vision_stage, h]
  rw [if_pos ⟨trivial, hst, hus⟩]

lemma vision_stage_err (deps : PipelineDeps) (lr : LocalAnalysisResult)
    (e : PyExc) (model : String)
    (h : deps.visionClient = some (.error e, model))
    (hst : lr.camera_status.status = "working") (hus : lr.image_quality.is_usable = true) :
    vision_stage deps lr true = (none, some e.msg, none, true) := by
  simp only [vision_stage, h]
  rw [if_pos ⟨trivial, hst, hus⟩]

lemma vision_stage_camera (deps : PipelineDeps) (lr : LocalAnalysisResult)
    (beh : Except PyExc VisionAnalysis) (model : String)
    (h : deps.visionClient = some (beh, model))
    (hst : ¬ lr.camera_status.status = "working") :
    vision_stage deps lr true =
      (none, some ("Camera " ++ lr.camera_status.status ++ ": "
        ++ lr.camera_status.reason), none, false) := by
  simp only [vision_stage, h]
  rw [if_neg (by simp [hst]), if_pos ⟨trivial, hst⟩]

lemma vision_stage_unusable (deps : PipelineDeps) (lr : LocalAnalysisResult)
    (beh : Except PyExc VisionAnalysis) (model : String)
    (h : deps.visionClient = some (beh, model))
    (hst : lr.camera_status.status = "working") (hus : lr.image_quality.is_usable = false) :
    vision_stage deps lr true =
      (none, some ("Image unusable: " ++ formatStrList lr.image_quality.issues),
        none, false) := by
  simp only [vision_stage, h]
  rw [if_neg (by simp [hus]), if_neg (by simp [hst]), if_pos ⟨trivial, by simp [hus]⟩]

lemma vision_stage_no_ai (deps : PipelineDeps) (lr : LocalAnalysisResult) :
    vision_stage deps lr false = (none, none, none, false) := by
  cases h : deps.visionClient with
  | none => simp only [vision_stage, h]
  | some pair =>
    cases pair with
    | mk beh model =>
      simp only [vision_stage, h]
      simp

lemma vision_stage_flag (deps : PipelineDeps) (lr : LocalAnalysisResult) (use_ai : Bool) :
    ((vision_stage deps lr use_ai).2.2.2 = true)
      ↔ (use_ai = true ∧ deps.visionClient.isSome = true
          ∧ lr.camera_status.status = "working" ∧ lr.image_quality.is_usable = true) := by
  cases hvc : deps.visionClient with
  | none =>
    rw [vision_stage_none deps lr use_ai hvc]
    simp
  | some pair =>
    cases pair with
    | mk beh model =>
      cases use_ai with
      | false =>
        rw [vision_stage_no_ai]
        simp
      | true =>
        by_cases hst : lr.camera_status.status = "working"
        · by_cases hus : lr.image_quality.is_usable = true
          · cases beh with
            | ok v => rw [vision_stage_ok deps lr v model hvc hst hus]; simp [hvc, hst, hus]
            | error e => rw [vision_stage_err deps lr e model hvc hst hus]; simp [hvc, hst, hus]
          · rw [vision_stage_unusable deps lr beh model hvc hst (by simpa using hus)]
            simp [hus]
        · rw [vision_stage_camera deps lr beh model hvc hst]
          simp [hst]

lemma merge_error_message (beach : BeachConfig) (frame : GrabbedFrame)
    (lr : LocalAnalysisResult) (pr : Option PersonDetectionResult)
    (wd : Option WeatherAPIData) (vr : Option VisionAnalysis) (mu : Option String)
    (el : ℤ) (em : Option String) :
    (merge_results beach frame lr pr wd vr mu el em).error_message = em := by
  simp only [merge_results]
  cases pr <;> cases vr <;> cases wd <;> simp <;> split <;> rfl

lemma merge_person_count_none (beach : BeachConfig) (frame : GrabbedFrame)
    (lr : LocalAnalysisResult) (wd : Option WeatherAPIData) (vr : Option VisionAnalysis)
    (mu : Option String) (el : ℤ) (em : Option String) :
    (merge_results beach frame lr none wd vr mu el em).person_count = none := by
  simp only [merge_results]
  cases vr <;> cases wd <;> simp <;> split <;> rfl

lemma merge_weather_temp_none (beach : BeachConfig) (frame : GrabbedFrame)
    (lr : LocalAnalysisResult) (pr : Option PersonDetectionResult)
    (vr : Option VisionAnalysis) (mu : Option String) (el : ℤ) (em : Option String) :
    (merge_results beach frame lr pr none vr mu el em).weather_temperature_c = none := by
  simp only [merge_results]
  cases pr <;> cases vr <;> simp

lemma merge_ai_beach_score_none (beach : BeachConfig) (frame : GrabbedFrame)
    (lr : LocalAnalysisResult) (pr : Option PersonDetectionResult)
    (wd : Option WeatherAPIData) (mu : Option String) (el : ℤ) (em : Option String) :
    (merge_results beach frame lr pr wd none mu el em).ai_beach_score = none := by
  simp only [merge_results]
  cases pr <;> cases wd <;> simp <;> split <;> rfl

/-- **C4.** `AnalysisPipeline.process_frame` never raises: whatever the
detection, weather and reasoning-service collaborators return or throw, it
returns an `Observation` (paired with the ghost escalation flag), in which
each stage's failure appears only as an absent field or in
`error_message`. -/
theorem process_frame_never_raises (deps : PipelineDeps) (frame : GrabbedFrame)
    (beach : BeachConfig) (use_ai : Bool) (elapsed_ms : ℤ) :
    ProcessFrameTotalSpec deps frame beach use_ai elapsed_ms := by
  intro r hr
  simp only [process_frame, hr]
  refine ⟨_, _, rfl, ?_, ?_, ?_⟩
  · intro e hdet
    rw [person_stage_err deps r e hdet]
    exact merge_person_count_none _ _ _ _ _ _ _ _
  · intro e hw
    rw [weather_stage_err deps e hw]
    exact merge_weather_temp_none _ _ _ _ _ _ _ _
  · intro beh model e hv hbe
    subst hbe
    cases use_ai with
    | false =>
      rw [vision_stage_no_ai]
      exact ⟨merge_ai_beach_score_none _ _ _ _ _ _ _ _, fun hcon => by simp at hcon⟩
    | true =>
      by_cases hst : r.camera_status.status = "working"
      · by_cases hus : r.image_quality.is_usable = true
        · rw [vision_stage_err deps r e model hv hst hus]
          exact ⟨merge_ai_beach_score_none _ _ _ _ _ _ _ _,
            fun _ => merge_error_message _ _ _ _ _ _ _ _ _⟩
        · rw [vision_stage_unusable deps r (.error e) model hv hst (by simpa using hus)]
          exact ⟨merge_ai_beach_score_none _ _ _ _ _ _ _ _,
            fun hcon => absurd hcon.2.2 hus⟩
      · rw [vision_stage_camera deps r (.error e) model hv hst]
        exact ⟨merge_ai_beach_score_none _ _ _ _ _ _ _ _,
          fun hcon => absurd hcon.2.1 hst⟩

/-- Witness for C4: all three collaborators throw, yet `process_frame`
returns an `Observation` with the failures recorded as absences and as the
error annotation. -/
theorem process_frame_never_raises_witness :
    ∃ obs att, process_frame depsAllFail frameEx beachTwo true 0 = .ok (obs, att) ∧
      obs.person_count = none ∧ obs.weather_temperature_c = none ∧
      obs.ai_beach_score = none ∧ obs.error_message = some "api 500" := by
  obtain ⟨obs, att, hok, hp, hw, hv⟩ :=
    process_frame_never_raises depsAllFail frameEx beachTwo true 0 {} rfl
  refine ⟨obs, att, hok, hp _ rfl, hw _ rfl, (hv _ _ _ rfl rfl).1, ?_⟩
  exact (hv _ _ _ rfl rfl).2 ⟨rfl, rfl, rfl⟩

/-- **C1 (amended).** The reasoning-service stage of `process_frame` is
attempted iff `use_ai` AND a vision client is configured AND the camera
status is `"working"` AND the image quality is usable; with `use_ai` set
and a vision client configured, every skip or failure of the stage sets
`error_message` to a human-readable reason naming the camera status, the
quality issues, or the raised error (quota or other).  (As stated — without
the configured-client condition — the claim is false: see the
counterexample.) -/
theorem process_frame_escalation_gate (deps : PipelineDeps) (frame : GrabbedFrame)
    (beach : BeachConfig) (use_ai : Bool) (elapsed_ms : ℤ) :
    EscalationSpec deps frame beach use_ai elapsed_ms := by
  intro r hr
  simp only [process_frame, hr]
  refine ⟨_, _, rfl, vision_stage_flag deps r use_ai, ?_⟩
  intro beh model hv hai
  subst hai
  refine ⟨?_, ?_, ?_⟩
  · intro hst
    rw [vision_stage_camera deps r beh model hv hst]
    exact merge_error_message _ _ _ _ _ _ _ _ _
  · intro hst hus
    rw [vision_stage_unusable deps r beh model hv hst hus]
    exact merge_error_message _ _ _ _ _ _ _ _ _
  · intro e hbe hst hus
    subst hbe
    rw [vision_stage_err deps r e model hv hst hus]
    exact merge_error_message _ _ _ _ _ _ _ _ _

/-- Witness for C1 (amended): a vision client whose call raises
`RateLimitError` — the stage is attempted and `error_message` carries the
quota reason. -/
theorem process_frame_escalation_gate_witness :
    ∃ obs att, process_frame depsQuota frameEx beachTwo true 0 = .ok (obs, att) ∧
      att = true ∧
      obs.error_message = some "Daily API limit reached (500). Resets at midnight UTC." := by
  obtain ⟨obs, att, hok, hflag, hmsg⟩ :=
    process_frame_escalation_gate depsQuota frameEx beachTwo true 0 {} rfl
  refine ⟨obs, att, hok, ?_, ?_⟩
  · exact hflag.mpr ⟨rfl, rfl, rfl, rfl⟩
  · exact (hmsg _ _ rfl rfl).2.2 _ rfl rfl rfl

/-- **C1 (counterexample).** With escalation enabled (`use_ai = True`), a
working camera and a usable image but no vision client configured, the
stage is not attempted (so "attempted iff use_ai ∧ working ∧ usable" fails)
and the stage is skipped with `error_message = None` (so "every skip sets
error_message" fails). -/
theorem process_frame_no_vision_counterexample :
    (process_frame depsNoVision frameEx beachTwo true 0).toOption.map
        (fun p => (p.1.error_message, p.2)) = some (none, false) ∧
    depsNoVision.visionClient = none ∧
    depsNoVision.analyzerResult = .ok {} ∧
    ({} : LocalAnalysisResult).camera_status.status = "working" ∧
    ({} : LocalAnalysisResult).image_quality.is_usable = true := by
  refine ⟨?_, rfl, rfl, rfl, rfl⟩
  rfl

/-- **C10.** `ObservationRepository.save` does not mutate its argument:
the object's post-call state equals its pre-call state field by field, its
`id` stays `None`, and the newly assigned row id is only returned. -/
theorem save_no_mutation (db : Database) (obs : Observation) (nowStr : String)
    (h : obs.id = none) :
    save_post_state obs = obs ∧ (save_post_state obs).id = none ∧
      (save db obs nowStr).1 = db.nextId := by
  exact ⟨rfl, h, rfl⟩

/-- Witness for C10 at a concrete observation with `id = None`. -/
theorem save_no_mutation_witness :
    obsC7.id = none ∧ (save_post_state obsC7 = obsC7 ∧ (save_post_state obsC7).id = none ∧
      (save dbEmptyEx obsC7 "c0").1 = dbEmptyEx.nextId) :=
  ⟨rfl, save_no_mutation dbEmptyEx obsC7 "c0" rfl⟩

/-- **C9.** An `Observation` whose `ai_best_for` or `ai_current_indicators`
list is empty is stored with SQL `NULL` in those columns and read back as
`[]`: after the round trip an empty list and an absent list are
indistinguishable. -/
theorem save_empty_list_normalization (db : Database) (obs : Observation) (nowStr : String) :
    EmptyListNormSpec db obs nowStr := by
  intro h1 h2
  refine ⟨save_row db obs nowStr, rfl, ?_, ?_, ?_, ?_⟩ <;>
    simp [save_row, row_to_obs, h1, h2]

/-- Witness for C9 at a concrete observation with both lists empty. -/
theorem save_empty_list_normalization_witness :
    obsEmpty.ai_best_for = [] ∧ obsEmpty.ai_current_indicators = [] ∧
    (∃ row, (save dbEmptyEx obsEmpty "c0").2.rows = dbEmptyEx.rows ++ [row] ∧
      row.ai_best_for = none ∧ row.ai_current_indicators = none ∧
      (row_to_obs row).ai_best_for = [] ∧ (row_to_obs row).ai_current_indicators = []) :=
  ⟨rfl, rfl, save_empty_list_normalization dbEmptyEx obsEmpty "c0" rfl rfl⟩

lemma insertionSort_head_strict_max (l : List ObsRow) (x : ObsRow)
    (hmax : ∀ y ∈ l, textLt y.captured_at x.captured_at) :
    (List.insertionSort capturedGE (l ++ [x])).head? = some x := by
  have hperm := List.perm_insertionSort capturedGE (l ++ [x])
  cases hs : List.insertionSort capturedGE (l ++ [x]) with
  | nil =>
    exfalso
    have hx : x ∈ List.insertionSort capturedGE (l ++ [x]) := hperm.mem_iff.mpr (by simp)
    rw [hs] at hx
    exact List.not_mem_nil x hx
  | cons h t =>
    have hhmem : h ∈ l ++ [x] := hperm.subset (by rw [hs]; exact List.mem_cons_self h t)
    rcases List.mem_append.mp hhmem with hl | hx1
    · exfalso
      have hxmem : x ∈ List.insertionSort capturedGE (l ++ [x]) := hperm.mem_iff.mpr (by simp)
      rw [hs] at hxmem
      rcases List.mem_cons.mp hxmem with rfl | hxt
      · exact lt_irrefl _ (α := List Char) (hmax _ hl)
      · have hsorted := List.sorted_insertionSort capturedGE (l ++ [x])
        rw [hs] at hsorted
        have hle : capturedGE h x := (List.sorted_cons.mp hsorted).1 x hxt
        exact lt_irrefl _ (α := List Char) (lt_of_le_of_lt (α := List Char) hle (hmax h hl))
    · rw [List.mem_singleton] at hx1
      rw [hx1]
      rfl

/-- **C7.** Saving an `Observation` with non-empty `ai_current_indicators`
and `ai_best_for` lists and re-reading it via `get_latest` for the same
site yields both lists identical in content and order, whenever the saved
observation is strictly newer than every stored row of that site. -/
theorem save_then_latest_round_trip (db : Database) (obs : Observation) (nowStr : String) :
    RoundTripSpec db obs nowStr := by
  intro hind hbf hlatest
  have hfilter : ((db.rows ++ [save_row db obs nowStr]).filter
      (fun r => r.beach_id == obs.beach_id))
      = (db.rows.filter (fun r => r.beach_id == obs.beach_id)) ++ [save_row db obs nowStr] := by
    rw [List.filter_append]
    simp [save_row]
  have hmax : ∀ y ∈ db.rows.filter (fun r => r.beach_id == obs.beach_id),
      textLt y.captured_at (save_row db obs nowStr).captured_at := by
    intro y hy
    rw [List.mem_filter] at hy
    exact hlatest y hy.1 (by simpa using hy.2)
  refine ⟨row_to_obs (save_row db obs nowStr), ?_, ?_, ?_⟩
  · rw [get_latest]
    have hrows : (save db obs nowStr).2.rows = db.rows ++ [save_row db obs nowStr] := rfl
    rw [hrows, hfilter, insertionSort_head_strict_max _ _ hmax]
    rfl
  · show (row_to_obs (save_row db obs nowStr)).ai_current_indicators = _
    simp [row_to_obs, save_row, hind]
  · show (row_to_obs (save_row db obs nowStr)).ai_best_for = _
    simp [row_to_obs, save_row, hbf]

/-- Witness for C7: a concrete observation with populated lists saved into
an empty store. -/
theorem save_then_latest_round_trip_witness :
    ∃ o, get_latest (save dbEmptyEx obsC7 "c0").2 obsC7.beach_id = some o ∧
      o.ai_current_indicators = obsC7.ai_current_indicators ∧
      o.ai_best_for = obsC7.ai_best_for :=
  save_then_latest_round_trip dbEmptyEx obsC7 "c0" (by decide) (by decide)
    (by intro r hr heq; simp [dbEmptyEx] at hr)

lemma le_textMax_left (a b : String) : textLe a (textMax a b) := by
  unfold textMax
  by_cases h : textLe a b
  · rw [if_pos h]
    exact h
  · rw [if_neg h]
    exact le_rfl (α := List Char)

lemma le_textMax_right (a b : String) : textLe b (textMax a b) := by
  unfold textMax
  by_cases h : textLe a b
  · rw [if_pos h]
    exact le_rfl (α := List Char)
  · rw [if_neg h]
    exact le_of_lt (α := List Char) (not_le.mp h)

lemma textMax_choice (a b : String) : textMax a b = a ∨ textMax a b = b := by
  unfold textMax
  by_cases h : textLe a b
  · rw [if_pos h]
    exact Or.inr rfl
  · rw [if_neg h]
    exact Or.inl rfl

lemma foldl_textMax_attained : ∀ (cs : List String) (c : String),
    cs.foldl textMax c = c ∨ cs.foldl textMax c ∈ cs := by
  intro cs
  induction cs with
  | nil => intro c; exact Or.inl rfl
  | cons d ds ih =>
    intro c
    show ds.foldl textMax (textMax c d) = c ∨ ds.foldl textMax (textMax c d) ∈ d :: ds
    rcases ih (textMax c d) with h | h
    · rcases textMax_choice c d with hm | hm
      · exact Or.inl (h.trans hm)
      · refine Or.inr ?_
        rw [h, hm]
        exact List.mem_cons_self d ds
    · exact Or.inr (List.mem_cons_of_mem d h)

lemma foldl_textMax_ge : ∀ (cs : List String) (c : String),
    textLe c (cs.foldl textMax c) ∧ ∀ x ∈ cs, textLe x (cs.foldl textMax c) := by
  intro cs
  induction cs with
  | nil =>
    intro c
    refine ⟨le_rfl (α := List Char), ?_⟩
    intro x hx
    cases hx
  | cons d ds ih =>
    intro c
    obtain ⟨h1, h2⟩ := ih (textMax c d)
    refine ⟨le_trans (α := List Char) (le_textMax_left c d) h1, ?_⟩
    intro x hx
    rcases List.mem_cons.mp hx with rfl | hmem
    · exact le_trans (α := List Char) (le_textMax_right c x) h1
    · exact h2 x hmem

lemma max_captured_attained (rs : List ObsRow) (m : String)
    (h : max_captured rs = some m) : ∃ r ∈ rs, r.captured_at = m := by
  cases rs with
  | nil => simp [max_captured] at h
  | cons r0 rest =>
    have h' : ((rest.map (fun r => r.captured_at)).foldl textMax r0.captured_at) = m :=
      Option.some.inj h
    rcases foldl_textMax_attained (rest.map (fun r => r.captured_at)) r0.captured_at with hx | hx
    · refine ⟨r0, List.mem_cons_self r0 rest, ?_⟩
      rw [← h']
      exact hx.symm
    · rw [h'] at hx
      obtain ⟨r, hrmem, hrc⟩ := List.mem_map.mp hx
      exact ⟨r, List.mem_cons_of_mem r0 hrmem, hrc⟩

lemma max_captured_ge (rs : List ObsRow) (m : String) (h : max_captured rs = some m) :
    ∀ r ∈ rs, textLe r.captured_at m := by
  cases rs with
  | nil => intro r hr; cases hr
  | cons r0 rest =>
    have h' : ((rest.map (fun r => r.captured_at)).foldl textMax r0.captured_at) = m :=
      Option.some.inj h
    intro r hr
    obtain ⟨h1, h2⟩ := foldl_textMax_ge (rest.map (fun r => r.captured_at)) r0.captured_at
    rcases List.mem_cons.mp hr with rfl | hmem
    · rw [← h']
      exact h1
    · rw [← h']
      exact h2 _ (List.mem_map_of_mem _ hmem)

/-- **C6 (amended).** `get_best_beaches` returns one observation per site
with an in-window row — that site's most recent in-window observation —
ordered by `COALESCE(ai_beach_score, 5.0)` descending; since the default
`5.0` lies below `7.0`, sites with scores `{7.0, NULL, 9.0}` rank
`[9.0-site, 7.0-site, NULL-site]` — the unscored site comes last, not in
the middle.  (The claimed middle placement is refuted by the
counterexample.) -/
theorem get_best_beaches_ranking (db : Database) (cutoff : String) :
    BestBeachesSpec db cutoff := by
  refine ⟨?_, ?_, ?_, ?_⟩
  · rw [get_best_beaches, List.pairwise_map]
    exact List.sorted_insertionSort scoreGE (joined_rows db cutoff)
  · intro o ho
    rw [get_best_beaches, List.mem_map] at ho
    obtain ⟨r, hr, rfl⟩ := ho
    have hrj : r ∈ joined_rows db cutoff := (List.perm_insertionSort scoreGE _).subset hr
    rw [joined_rows, List.mem_filter] at hrj
    obtain ⟨hrdb, hpred⟩ := hrj
    rw [List.any_eq_true] at hpred
    obtain ⟨g, hg, hgp⟩ := hpred
    rw [Bool.and_eq_true, beq_iff_eq, beq_iff_eq] at hgp
    obtain ⟨hbid, hcap⟩ := hgp
    rw [score_groups, List.mem_filterMap] at hg
    obtain ⟨bid, hbidmem, hgm⟩ := hg
    rw [Option.map_eq_some'] at hgm
    obtain ⟨m, hmax, hgeq⟩ := hgm
    subst hgeq
    simp only [] at hbid hcap
    refine ⟨r, hrdb, rfl, ?_, ?_⟩
    · obtain ⟨rm, hrmmem, hrmc⟩ := max_captured_attained _ _ hmax
      have hrmw : rm ∈ windowed_rows db cutoff := (List.mem_filter.mp hrmmem).1
      rw [windowed_rows, List.mem_filter] at hrmw
      have hcl : textLt cutoff rm.captured_at := by simpa using hrmw.2
      rw [hcap, ← hrmc]
      exact hcl
    · intro r2 hr2 hbid2 hcut2
      have hr2w : r2 ∈ windowed_rows db cutoff := by
        rw [windowed_rows, List.mem_filter]
        exact ⟨hr2, by simpa using hcut2⟩
      have hr2f : r2 ∈ (windowed_rows db cutoff).filter (fun x => x.beach_id == bid) := by
        rw [List.mem_filter]
        exact ⟨hr2w, by simp [hbid2, hbid]⟩
      have hle := max_captured_ge _ _ hmax r2 hr2f
      rw [hcap]
      exact hle
  · intro r hr hcut
    have hrw : r ∈ windowed_rows db cutoff := by
      rw [windowed_rows, List.mem_filter]
      exact ⟨hr, by simpa using hcut⟩
    have hbidd : r.beach_id ∈ ((windowed_rows db cutoff).map (fun x => x.beach_id)).dedup :=
      List.mem_dedup.mpr (List.mem_map_of_mem _ hrw)
    have hrf : r ∈ (windowed_rows db cutoff).filter (fun x => x.beach_id == r.beach_id) := by
      rw [List.mem_filter]
      exact ⟨hrw, by simp⟩
    obtain ⟨m, hm⟩ : ∃ m, max_captured
        ((windowed_rows db cutoff).filter (fun x => x.beach_id == r.beach_id)) = some m := by
      cases hcase : (windowed_rows db cutoff).filter (fun x => x.beach_id == r.beach_id) with
      | nil =>
        rw [hcase] at hrf
        cases hrf
      | cons a l =>
        exact ⟨(l.map (fun x : ObsRow => x.captured_at)).foldl textMax a.captured_at, rfl⟩
    have hgrp : (r.beach_id, m) ∈ score_groups db cutoff := by
      rw [score_groups, List.mem_filterMap]
      refine ⟨r.beach_id, hbidd, ?_⟩
      rw [hm]
      rfl
    obtain ⟨rm, hrmmem, hrmc⟩ := max_captured_attained _ _ hm
    rw [List.mem_filter] at hrmmem
    obtain ⟨hrmw, hrmbid⟩ := hrmmem
    have hrmdb : rm ∈ db.rows := by
      rw [windowed_rows, List.mem_filter] at hrmw
      exact hrmw.1
    have hrmj : rm ∈ joined_rows db cutoff := by
      rw [joined_rows, List.mem_filter]
      refine ⟨hrmdb, ?_⟩
      rw [List.any_eq_true]
      refine ⟨(r.beach_id, m), hgrp, ?_⟩
      rw [Bool.and_eq_true]
      exact ⟨hrmbid, by simp [hrmc]⟩
    refine ⟨row_to_obs rm, ?_, ?_⟩
    · rw [get_best_beaches]
      exact List.mem_map_of_mem _ ((List.perm_insertionSort scoreGE _).mem_iff.mpr hrmj)
    · show (row_to_obs rm).beach_id = r.beach_id
      simpa using hrmbid
  · decide

/-- Witness for C6 (amended) at the three-site store. -/
theorem get_best_beaches_ranking_witness :
    (get_best_beaches dbC6 "2026-01-01T09:00").map (fun o => o.beach_id)
      = ["b9", "b7", "bnull"] :=
  (get_best_beaches_ranking dbC6 "2026-01-01T09:00").2.2.2

/-- **C6 (counterexample).** For sites with latest in-window scores
`{7.0, NULL, 9.0}`, the returned order is `[9.0-site, 7.0-site,
NULL-site]` — the default `COALESCE` score is `5.0 < 7.0`, so the unscored
site is last, not between `9.0` and `7.0` as claimed. -/
theorem get_best_beaches_middle_counterexample :
    (get_best_beaches dbC6 "2026-01-01T09:00").map (fun o => o.beach_id)
      = ["b9", "b7", "bnull"] ∧
    ¬ ((get_best_beaches dbC6 "2026-01-01T09:00").map (fun o => o.beach_id)
      = ["b9", "bnull", "b7"]) := by
  exact ⟨by decide, by decide⟩

lemma merge_beach_id (beach : BeachConfig) (frame : GrabbedFrame)
    (lr : LocalAnalysisResult) (pr : Option PersonDetectionResult)
    (wd : Option WeatherAPIData) (vr : Option VisionAnalysis) (mu : Option String)
    (el : ℤ) (em : Option String) :
    (merge_results beach frame lr pr wd vr mu el em).beach_id = beach.id := by
  simp only [merge_results]
  cases pr <;> cases vr <;> cases wd <;> simp <;> split <;> rfl

lemma process_frame_beach_id (deps : PipelineDeps) (frame : GrabbedFrame)
    (beach : BeachConfig) (use_ai : Bool) (elapsed_ms : ℤ) (obs : Observation) (att : Bool)
    (h : process_frame deps frame beach use_ai elapsed_ms = .ok (obs, att)) :
    obs.beach_id = beach.id := by
  cases ha : deps.analyzerResult with
  | error ex =>
    simp only [process_frame, ha] at h
    exact Except.noConfusion h
  | ok r =>
    simp only [process_frame, ha] at h
    have hpair := Except.ok.inj h
    rw [Prod.mk.injEq] at hpair
    obtain ⟨hobs, -⟩ := hpair
    rw [← hobs]
    exact merge_beach_id _ _ _ _ _ _ _ _ _

lemma find_self : ∀ (l : List BeachConfig), ((l.map (fun b => b.id)).Nodup) →
    ∀ b ∈ l, l.find? (fun x => x.id == b.id) = some b := by
  intro l
  induction l with
  | nil => intro _ b hb; cases hb
  | cons c rest ih =>
    intro hnd b hb
    rw [List.map_cons, List.nodup_cons] at hnd
    obtain ⟨hc, hrest⟩ := hnd
    by_cases he : c.id = b.id
    · have hbc : b = c := by
        rcases List.mem_cons.mp hb with rfl | hmem
        · rfl
        · exact absurd (by rw [he]; exact List.mem_map_of_mem _ hmem) hc
      subst hbc
      rw [List.find?_cons_of_pos]
      simp
    · rcases List.mem_cons.mp hb with rfl | hmem
      · exact absurd rfl he
      · rw [List.find?_cons_of_neg]
        · exact ih hrest b hmem
        · simp [he]

lemma select_nodup (beaches : List BeachConfig) (ids : Option (List String))
    (h : (beaches.map (fun b => b.id)).Nodup) :
    ((select_beaches beaches ids).map (fun b => b.id)).Nodup := by
  cases ids with
  | none => exact h
  | some l =>
    by_cases hl : l ≠ []
    · simp only [select_beaches]
      rw [if_pos hl]
      exact List.Nodup.sublist ((List.filter_sublist _).map _) h
    · simp only [select_beaches]
      rw [if_neg hl]
      exact h

lemma run_once_go (cfg : FrameGrabberCfg) (net : Net) (now : String) (sdeps : SchedulerDeps)
    (use_ai : Bool) (elapsed_ms : ℤ) (nowStr : String) (beaches2 : List BeachConfig) :
    ∀ (bs : List BeachConfig),
      (∀ x ∈ bs, beaches2.find? (fun y => y.id == x.id) = some x) →
      ∀ (acc : List String × Database),
      ∃ newRows,
        ((grab_all cfg net now bs).foldl
            (run_step sdeps use_ai elapsed_ms nowStr beaches2) acc).1
          = acc.1 ++ (bs.filter
              (beach_cycle_success cfg net now sdeps use_ai elapsed_ms)).map (fun b => b.id) ∧
        ((grab_all cfg net now bs).foldl
            (run_step sdeps use_ai elapsed_ms nowStr beaches2) acc).2.rows
          = acc.2.rows ++ newRows ∧
        newRows.map (fun r => r.beach_id)
          = (bs.filter (beach_cycle_success cfg net now sdeps use_ai elapsed_ms)).map
              (fun b => b.id) := by
  intro bs
  induction bs with
  | nil =>
    intro _ acc
    exact ⟨[], by simp [grab_all], by simp [grab_all], by simp [grab_all]⟩
  | cons b bs ih =>
    intro hfind acc
    have hb : beaches2.find? (fun y => y.id == b.id) = some b :=
      hfind b (List.mem_cons_self b bs)
    have hbs : ∀ x ∈ bs, beaches2.find? (fun y => y.id == x.id) = some x :=
      fun x hx => hfind x (List.mem_cons_of_mem b hx)
    cases hg : (grab_frame cfg net b now).1 with
    | error e =>
      have hcons : grab_all cfg net now (b :: bs)
          = { beach_id := b.id, error := some e } :: grab_all cfg net now bs := by
        simp [grab_all, hg]
      have hfail : beach_cycle_success cfg net now sdeps use_ai elapsed_ms b = false := by
        simp [beach_cycle_success, hg]
      have hfilter : (b :: bs).filter (beach_cycle_success cfg net now sdeps use_ai elapsed_ms)
          = bs.filter (beach_cycle_success cfg net now sdeps use_ai elapsed_ms) := by
        simp [List.filter_cons, hfail]
      have hstep : run_step sdeps use_ai elapsed_ms nowStr beaches2 acc
          { beach_id := b.id, error := some e } = acc := by
        simp [run_step, GrabResult.success]
      rw [hcons, List.foldl_cons, hstep, hfilter]
      exact ih hbs acc
    | ok frame =>
      have hcons : grab_all cfg net now (b :: bs)
          = { beach_id := b.id, frame := some frame } :: grab_all cfg net now bs := by
        simp [grab_all, hg]
      rw [hcons, List.foldl_cons]
      cases hp : process_frame (sdeps.pipeDeps b.id) frame b use_ai elapsed_ms with
      | error e2 =>
        have hfail : beach_cycle_success cfg net now sdeps use_ai elapsed_ms b = false := by
          simp [beach_cycle_success, hg, hp]
        have hfilter : (b :: bs).filter (beach_cycle_success cfg net now sdeps use_ai elapsed_ms)
            = bs.filter (beach_cycle_success cfg net now sdeps use_ai elapsed_ms) := by
          simp [List.filter_cons, hfail]
        have hstep : run_step sdeps use_ai elapsed_ms nowStr beaches2 acc
            { beach_id := b.id, frame := some frame } = acc := by
          simp [run_step, GrabResult.success, hb, hp]
        rw [hstep, hfilter]
        exact ih hbs acc
      | ok pr =>
        cases pr with
        | mk obs att =>
          by_cases hsv : sdeps.saveRaises b.id = true
          · have hfail : beach_cycle_success cfg net now sdeps use_ai elapsed_ms b = false := by
              simp [beach_cycle_success, hg, hp, hsv]
            have hfilter : (b :: bs).filter
                (beach_cycle_success cfg net now sdeps use_ai elapsed_ms)
                = bs.filter (beach_cycle_success cfg net now sdeps use_ai elapsed_ms) := by
              simp [List.filter_cons, hfail]
            have hstep : run_step sdeps use_ai elapsed_ms nowStr beaches2 acc
                { beach_id := b.id, frame := some frame } = acc := by
              simp [run_step, GrabResult.success, hb, hp, hsv]
            rw [hstep, hfilter]
            exact ih hbs acc
          · have hok : beach_cycle_success cfg net now sdeps use_ai elapsed_ms b = true := by
              simp [beach_cycle_success, hg, hp, hsv]
            have hfilter : (b :: bs).filter
                (beach_cycle_success cfg net now sdeps use_ai elapsed_ms)
                = b :: bs.filter (beach_cycle_success cfg net now sdeps use_ai elapsed_ms) := by
              simp [List.filter_cons, hok]
            have hstep : run_step sdeps use_ai elapsed_ms nowStr beaches2 acc
                { beach_id := b.id, frame := some frame }
                = (acc.1 ++ [b.id], (save acc.2 obs nowStr).2) := by
              simp [run_step, GrabResult.success, hb, hp, hsv]
            rw [hstep, hfilter]
            obtain ⟨nr, h1, h2, h3⟩ := ih hbs (acc.1 ++ [b.id], (save acc.2 obs nowStr).2)
            refine ⟨save_row acc.2 obs nowStr :: nr, ?_, ?_, ?_⟩
            · rw [h1]
              simp
            · rw [h2]
              have hr : (save acc.2 obs nowStr).2.rows
                  = acc.2.rows ++ [save_row acc.2 obs nowStr] := rfl
              rw [hr, List.append_assoc]
              rfl
            · have hob : obs.beach_id = b.id :=
                process_frame_beach_id _ _ _ _ _ _ _ hp
              have hrowid : (save_row acc.2 obs nowStr).beach_id = obs.beach_id := rfl
              simp only [List.map_cons]
              rw [hrowid, hob, h3]

/-- **C5.** `CaptureScheduler.run_once` returns exactly the ids of the
selected sites whose fetch succeeded and whose analyze-and-persist step
completed, in site order; the cycle appends exactly one observation row
per returned id (so a site whose fetch failed has nothing persisted this
cycle), and each site's outcome depends only on its own fetch, analysis
and save — another site's failure cannot remove it. -/
theorem run_once_successful_sites (cfg : FrameGrabberCfg) (net : Net) (now : String)
    (sdeps : SchedulerDeps) (use_ai : Bool) (elapsed_ms : ℤ) (nowStr : String)
    (beaches : List BeachConfig) (beach_ids : Option (List String)) (db : Database) :
    RunOnceSpec cfg net now sdeps use_ai elapsed_ms nowStr beaches beach_ids db := by
  intro hnodup
  have hfind := find_self (select_beaches beaches beach_ids)
    (select_nodup beaches beach_ids hnodup)
  obtain ⟨nr, h1, h2, h3⟩ := run_once_go cfg net now sdeps use_ai elapsed_ms nowStr
    (select_beaches beaches beach_ids) (select_beaches beaches beach_ids) hfind ([], db)
  have hA : (run_once cfg net now sdeps use_ai elapsed_ms nowStr beaches beach_ids db).1
      = ((select_beaches beaches beach_ids).filter
          (beach_cycle_success cfg net now sdeps use_ai elapsed_ms)).map (fun b => b.id) := by
    rw [run_once, h1]
    rfl
  refine ⟨hA, nr, ?_, ?_⟩
  · rw [run_once, h2]
  · rw [hA]
    exact h3

/-- Witness for C5: three sites of which the middle one's fetch fails —
`run_once` returns exactly the two successful ids. -/
theorem run_once_successful_sites_witness :
    (run_once cfgEx (netOkAt ("http://fallback/a.jpg")) "t0" sdepsEx true 0 "c0"
      [beachTwo, beachWindy, beachThree] none dbEmptyEx).1 = ["b1", "b3"] := by
  have h := run_once_successful_sites cfgEx (netOkAt ("http://fallback/a.jpg")) "t0" sdepsEx
    true 0 "c0" [beachTwo, beachWindy, beachThree] none dbEmptyEx (by decide)
  exact h.1.trans (by decide)

/-- Witness for C2 at a concrete limiter state. -/
theorem tokenBucket_acquire_correct_witness :
    1 ≤ (limiterInit 30 500 0 0).rpm ∧ AcquireSpec (limiterInit 30 500 0 0) 0 0 :=
  ⟨by decide, tokenBucket_acquire_correct (limiterInit 30 500 0 0) 0 0 (by decide)⟩

end CoastWatch
